import Mathlib

/-!
# HTML5Backend: a shallow embedding of `src/HTML5Backend.js`

The class `HTML5Backend` translates the browser's drag events into calls on
three collaborators (the action dispatcher, the monitor and the registry of
the drag-and-drop manager).  The embedding is a state-passing translation:

* `Backend` holds the instance fields, `Page` holds what lives outside the
  instance (the class-level flag `isSetUp`, the listeners registered on the
  window service, pending frame and timer callbacks, the document);
* the collaborators are a parameter: `Manager M` gives, over an arbitrary
  state type `M`, the monitor's queries and the effect of every action and
  registry call, so every theorem holds for every collaborator behaviour;
* every call the backend makes on a collaborator, on the event or on its
  transfer payload is appended to `World.trace`, so statements about which
  calls are made, how often and in which order are statements about lists;
* a method is a function `World M → Res (World M) α`: it either returns or
  throws, and in both cases yields the state at that moment (a JavaScript
  exception does not roll the fields back).

Modelling conventions: collaborator calls return normally and do not call
back into the backend; helpers of the repository that are not part of
`HTML5Backend.js` (`matchNativeItemType`, `isFirefox`, the offset helpers)
are fields of `Host`; a property access on `undefined` is a `typeError`.
The method `handleSelectStart` (an IE workaround that touches none of the
fields) is not part of the embedding.
-/

namespace HTML5Backend

/-! ## Values -/

/-- Source ids, target ids and registry handles. -/
abbrev Ident := Nat

/-- DOM nodes, by identity. -/
abbrev Node := Nat

/-- A client offset, the object with fields x and y. -/
structure Offset where
  x : Int
  y : Int
  deriving DecidableEq, Repr

/-- Modelled from the spec: the module `NativeTypes` is not part of the sources; the spec
names the native types file, URL and text.  Every other item type is `other`. -/
inductive ItemType
  | FILE
  | URL
  | TEXT
  | other (tag : Nat)
  deriving DecidableEq, Repr

/-- Modelled from the spec: the values exported by `NativeTypes`, which
`isDraggingNativeItem` enumerates with `Object.keys(NativeTypes)`. -/
def NativeTypes : List ItemType := [ItemType.FILE, ItemType.URL, ItemType.TEXT]

/-- The values assigned to `dataTransfer.dropEffect`. -/
inductive DropEffect
  | copy
  | move
  | none
  | custom (name : String)
  deriving DecidableEq, Repr

/-- Exceptions a method can throw. -/
inductive JsError
  | doubleSetup
  | typeError
  | referenceError
  | unreadable
  | permissionDenied
  deriving DecidableEq, Repr

/-- The `dataTransfer` object of a drag event: `types` is `none` when the
property is null or undefined, `hasSetDragImage` says whether
`typeof dataTransfer.setDragImage === 'function'`, `setDataThrows` whether
`setData('application/json', ...)` throws (IE does). -/
structure DataTransfer where
  types : Option (List String)
  hasSetDragImage : Bool
  setDataThrows : Bool
  deriving DecidableEq, Repr

/-- A drag event as the handlers read it. -/
structure DragEvent where
  target : Node
  dataTransfer : DataTransfer
  clientX : Int
  clientY : Int
  deriving DecidableEq, Repr

/-- Options of a drag source (`connectDragSource`); a field is `none` when
the property is undefined. -/
structure SourceOptions where
  dropEffect : Option DropEffect
  deriving DecidableEq, Repr

/-- Options of a drag preview (`connectDragPreview`); a field is `none`
when the property is undefined, `captureDraggingState` holds the
truthiness of the property. -/
structure PreviewOptions where
  anchorX : Option ℚ
  anchorY : Option ℚ
  captureDraggingState : Option Bool

/-- The second argument of `actions.beginDrag` without its callback
`getSourceClientOffset`, which `Manager.beginDrag` receives separately. -/
structure BeginDragOptions where
  publishSource : Bool
  clientOffset : Offset
  deriving DecidableEq, Repr

/-! ## JavaScript objects used as maps -/

/-- An object used as a map from ids to values, newest binding first. -/
abbrev JsObj (α : Type) := List (Ident × α)

/-- Property read: `obj[key]`, `none` when undefined (also for the key `null`). -/
def JsObj.get {α : Type} (o : JsObj α) (key : Option Ident) : Option α :=
  match key with
  | none => none
  | some k => (o.find? (fun p => p.1 == k)).map (fun p => p.2)

/-- Property delete: `delete obj[key]`. -/
def JsObj.delete {α : Type} (o : JsObj α) (key : Ident) : JsObj α :=
  o.filter (fun p => p.1 != key)

/-- Property write: `obj[key] = value`. -/
def JsObj.set {α : Type} (o : JsObj α) (key : Ident) (value : α) : JsObj α :=
  (key, value) :: JsObj.delete o key

/-! ## The page: state outside the instance -/

/-- Event types the backend listens to. -/
inductive EventType
  | dragstart
  | dragend
  | dragenter
  | dragleave
  | dragover
  | drop
  | mousemove
  | mouseover
  | selectstart
  deriving DecidableEq, Repr

/-- The bound methods of an instance that are used as callbacks. -/
inductive Handler
  | handleTopDragStart
  | handleTopDragStartCapture
  | handleTopDragEndCapture
  | handleTopDragEnter
  | handleTopDragEnterCapture
  | handleTopDragLeaveCapture
  | handleTopDragOver
  | handleTopDragOverCapture
  | handleTopDrop
  | handleTopDropCapture
  | endDragIfSourceWasRemovedFromDOM
  | asyncEndDragNativeItem
  | endDragNativeItem
  | publishDragSource
  deriving DecidableEq, Repr

/-- A listener registered on a window service: `owner` is the instance
whose bound method `handler` is (the constructor binds the methods, so two
instances never share a callback). -/
structure Listener where
  target : Nat
  type : EventType
  owner : Nat
  handler : Handler
  capture : Bool
  deriving DecidableEq, Repr

/-- The per-node callbacks created by the `connect` methods. -/
inductive NodeHandler
  | handleDragStart (sourceId : Ident)
  | handleSelectStart (sourceId : Ident)
  | handleDragEnter (targetId : Ident)
  | handleDragOver (targetId : Ident)
  | handleDrop (targetId : Ident)
  deriving DecidableEq, Repr

/-- A listener registered on a DOM node by a `connect` method. -/
structure NodeListener where
  node : Node
  type : EventType
  owner : Nat
  handler : NodeHandler
  deriving DecidableEq, Repr

/-- A callback waiting in the window service: an animation frame request
(with its request id) or a timer. -/
structure Pending where
  id : Nat
  owner : Nat
  handler : Handler
  deriving DecidableEq, Repr

/-- The part of the document the backend reads: which nodes
`document.body` contains, which carry a `draggable` attribute, which have no
`hasAttribute` method, and the layout the offset helpers measure. -/
structure Dom where
  body : List Node
  draggable : List Node
  noHasAttribute : List Node
  layout : List (Node × Offset)
  deriving DecidableEq, Repr

/-- State outside the instance.  `window` is the global (none: undefined),
`customWindow` the property `window.__ReactDndHTML5BackendWindow`, `isSetUp`
the class-level flag `HTML5Backend.isSetUp`. -/
structure Page where
  window : Option Nat
  customWindow : Option Nat
  isSetUp : Bool
  listeners : List Listener
  nodeListeners : List NodeListener
  frames : List Pending
  lastFrameId : Nat
  timeouts : List Pending
  dom : Dom
  deriving DecidableEq, Repr

/-- DOM `addEventListener`: registering a callback that is already
registered for the same type and phase is ignored. -/
def addListener (ls : List Listener) (l : Listener) : List Listener :=
  if l ∈ ls then ls else ls ++ [l]

/-- DOM `removeEventListener`. -/
def removeListener (ls : List Listener) (l : Listener) : List Listener :=
  ls.filter (fun x => x != l)

/-! ## The instance -/

/-- Modelled from the spec: `EnterLeaveCounter` is not part of the sources.  The spec
describes a set of currently entered nodes with a depth counter. -/
structure EnterLeaveCounter where
  entered : List Node
  depth : Nat
  deriving DecidableEq, Repr

/-- Modelled from the spec: `enter` reports a first enter exactly when the set of
entered nodes was empty before the call; otherwise it increments the nesting. -/
def EnterLeaveCounter.enter (c : EnterLeaveCounter) (node : Node) : Bool × EnterLeaveCounter :=
  if c.entered.isEmpty then
    (true, { entered := [node], depth := 1 })
  else
    (false, { entered := if node ∈ c.entered then c.entered else c.entered ++ [node],
              depth := c.depth + 1 })

/-- Modelled from the spec: `leave` decrements and reports a last leave only when the
depth reaches zero. -/
def EnterLeaveCounter.leave (c : EnterLeaveCounter) (node : Node) : Bool × EnterLeaveCounter :=
  let d := c.depth - 1
  (decide (0 < c.depth) && d == 0,
   { entered := if d == 0 then [] else c.entered.filter (fun n => n != node), depth := d })

/-- Modelled from the spec: `reset` forces the depth to zero and clears the set. -/
def EnterLeaveCounter.reset (_c : EnterLeaveCounter) : EnterLeaveCounter :=
  { entered := [], depth := 0 }

/-- Modelled from the spec: the object `new (createNativeDragSource(type))()`; the
module `NativeDragSources` is not part of the sources.  `item` is the
payload read by `mutateItemByReadingDataTransfer`, `none` until then. -/
structure NativeSource where
  type : ItemType
  item : Option DataTransfer
  deriving DecidableEq, Repr

/-- The fields of an `HTML5Backend` instance.  `self` is the identity of
the instance (of its bound methods); a field that is undefined or null is
`none`. -/
structure Backend where
  self : Nat
  windowService : Option Nat
  sourcePreviewNodes : JsObj (Option Node)
  sourcePreviewNodeOptions : JsObj (Option PreviewOptions)
  sourceNodes : JsObj Node
  sourceNodeOptions : JsObj (Option SourceOptions)
  enterLeaveCounter : EnterLeaveCounter
  asyncEndDragFrameId : Option Nat
  currentNativeSource : Option NativeSource
  currentNativeHandle : Option Ident
  currentDragSourceNode : Option Node
  currentDragSourceNodeOffset : Option Offset
  currentDragSourceNodeOffsetChanged : Bool
  dragStartSourceIds : Option (List Ident)
  dragEnterTargetIds : Option (List Ident)
  dragOverTargetIds : Option (List Ident)
  dropTargetIds : Option (List Ident)

/-- The instance right after `new HTML5Backend(manager)`. -/
def Backend.new (self : Nat) : Backend :=
  { self := self
    windowService := none
    sourcePreviewNodes := []
    sourcePreviewNodeOptions := []
    sourceNodes := []
    sourceNodeOptions := []
    enterLeaveCounter := { entered := [], depth := 0 }
    asyncEndDragFrameId := none
    currentNativeSource := none
    currentNativeHandle := none
    currentDragSourceNode := none
    currentDragSourceNodeOffset := none
    currentDragSourceNodeOffsetChanged := false
    dragStartSourceIds := none
    dragEnterTargetIds := none
    dragOverTargetIds := none
    dropTargetIds := none }

/-! ## Collaborators and host helpers -/

/-- The calls the backend makes on its collaborators, on the event and on
the transfer payload, as recorded in the trace. -/
inductive Call
  | beginDrag (sourceIds : Option (List Ident)) (options : Option BeginDragOptions)
  | publishDragSource
  | hover (targetIds : Option (List Ident)) (clientOffset : Offset)
  | drop
  | endDrag
  | addSource (type : ItemType)
  | removeSource (handle : Option Ident)
  | preventDefault
  | setDropEffect (value : DropEffect)
  | setDragImage (preview : Node) (x : Int) (y : Int)
  | setData
  | mutateItemByReadingDataTransfer (dataTransfer : DataTransfer)
  | recordWarning (message : String) (itemType : Option ItemType)
  deriving DecidableEq, Repr

/-- The manager the constructor receives: the monitor's queries and the
effect of each action and registry call on the collaborators' state `M`.
`beginDrag` also receives the callback `getSourceClientOffset`. -/
structure Manager (M : Type) where
  isDragging : M → Bool
  getItemType : M → Option ItemType
  getSourceId : M → Option Ident
  canDropOnTarget : M → Ident → Bool
  beginDrag : Option (List Ident) → Option BeginDragOptions → (Ident → Option Offset) → M → M
  publishDragSource : M → M
  hover : Option (List Ident) → Offset → M → M
  drop : M → M
  endDrag : M → M
  addSource : ItemType → M → Ident × M
  removeSource : Option Ident → M → M

/-- What the free identifier `host` of lines 497 and 509 refers to.  The
file neither declares nor imports it, so it is a global of the embedding
page: not declared at all (reading it is a ReferenceError), declared with a
falsy value, an object without `recordWarning`, or a diagnostic sink. -/
inductive GlobalHost
  | undeclared
  | falsy
  | withoutRecordWarning
  | sink
  deriving DecidableEq, Repr

/-- Helpers imported by `HTML5Backend.js` from modules that are not part of
the sources: `isFirefox` (BrowserDetector), `matchNativeItemType`
(NativeDragSources; it can throw on an unreadable payload), the offset
helpers (OffsetUtils) and `shallowEqual`; and the global `host` the file
reads without declaring it. -/
structure Host where
  isFirefox : Bool
  matchNativeItemType : DataTransfer → Except JsError (Option ItemType)
  getNodeClientOffset : Dom → Node → Option Offset
  getEventClientOffset : DragEvent → Offset
  getDragPreviewOffset : Dom → Option Node → Node → Offset → Option ℚ × Option ℚ → Offset
  shallowEqual : Option Offset → Option Offset → Bool
  globalHost : GlobalHost := GlobalHost.undeclared

/-- Which accesses to a `dragleave` event fail (##FirefoxPermissionDenied,
lines 490-513): the call `e.preventDefault()`, and reading the target inside
`this.enterLeaveCounter.leave(e.target)`.  The source guards these two
accesses in `handleTopDragLeaveCapture` only, and the embedding lets them fail
there only. -/
structure EventAccess where
  preventDefaultThrows : Bool
  targetThrows : Bool
  deriving DecidableEq, Repr

/-! ## Methods as state transformers -/

/-- Everything a method can read or change. -/
structure World (M : Type) where
  page : Page
  session : M
  backend : Backend
  trace : List Call

/-- The result of running a method: it returned `a`, or threw `e`; `s` is
the state at that moment. -/
inductive Res (σ α : Type)
  | ok (a : α) (s : σ)
  | throw (e : JsError) (s : σ)

/-- The state a run ends in. -/
def Res.state {σ α : Type} : Res σ α → σ
  | Res.ok _ s => s
  | Res.throw _ s => s

/-- The exception a run ends with, `none` when it returned. -/
def Res.thrown {σ α : Type} : Res σ α → Option JsError
  | Res.ok _ _ => none
  | Res.throw e _ => some e

/-- A method body. -/
def JsM (σ α : Type) := σ → Res σ α

/-- Return a value. -/
def JsM.pure {σ α : Type} (a : α) : JsM σ α := fun s => Res.ok a s

/-- Sequencing: an exception skips the rest. -/
def JsM.bind {σ α β : Type} (x : JsM σ α) (f : α → JsM σ β) : JsM σ β := fun s =>
  match x s with
  | Res.ok a s1 => f a s1
  | Res.throw e s1 => Res.throw e s1

instance {σ : Type} : Monad (JsM σ) where
  pure := JsM.pure
  bind := JsM.bind

/-- The statement `throw e`. -/
def throwJs {σ α : Type} (e : JsError) : JsM σ α := fun s => Res.throw e s

/-- The statement `try { body } catch (err) { handler }`. -/
def tryCatch {σ α : Type} (body : JsM σ α) (handler : JsError → JsM σ α) : JsM σ α := fun s =>
  match body s with
  | Res.ok a s1 => Res.ok a s1
  | Res.throw e s1 => handler e s1

section Methods

variable {M : Type}

/-! ### Primitive steps -/

/-- Read the instance fields. -/
def getBackend : JsM (World M) Backend := fun w => Res.ok w.backend w

/-- Assign instance fields. -/
def setBackend (f : Backend → Backend) : JsM (World M) Unit := fun w =>
  Res.ok () { w with backend := f w.backend }

/-- Read the state outside the instance. -/
def getPage : JsM (World M) Page := fun w => Res.ok w.page w

/-- Change the state outside the instance. -/
def setPage (f : Page → Page) : JsM (World M) Unit := fun w =>
  Res.ok () { w with page := f w.page }

/-- Read the collaborators' state through a monitor query. -/
def query {α : Type} (q : M → α) : JsM (World M) α := fun w => Res.ok (q w.session) w

/-- A call on the event or the transfer payload: recorded in the trace. -/
def record (c : Call) : JsM (World M) Unit := fun w =>
  Res.ok () { w with trace := w.trace ++ [c] }

/-- A call on the action dispatcher or the registry: recorded in the
trace, and the collaborators' state moves as the manager says. -/
def act (c : Call) (f : M → M) : JsM (World M) Unit := fun w =>
  Res.ok () { w with session := f w.session, trace := w.trace ++ [c] }

/-- Truthiness of a property that may be undefined. -/
def truthy (v : Option Bool) : Bool := v.getD false

/-- The call `this.windowService.addEventListener(type, this.handler, capture)`. -/
def windowAddEventListener (type : EventType) (handler : Handler) (capture : Bool) :
    JsM (World M) Unit := fun w =>
  match w.backend.windowService with
  | none => Res.throw JsError.typeError w
  | some ws =>
    let l : Listener :=
      { target := ws, type := type, owner := w.backend.self, handler := handler,
        capture := capture }
    Res.ok () { w with page := { w.page with listeners := addListener w.page.listeners l } }

/-- The call `this.windowService.removeEventListener(type, this.handler, capture)`. -/
def windowRemoveEventListener (type : EventType) (handler : Handler) (capture : Bool) :
    JsM (World M) Unit := fun w =>
  match w.backend.windowService with
  | none => Res.throw JsError.typeError w
  | some ws =>
    let l : Listener :=
      { target := ws, type := type, owner := w.backend.self, handler := handler,
        capture := capture }
    Res.ok () { w with page := { w.page with listeners := removeListener w.page.listeners l } }

/-- The call `this.windowService.requestAnimationFrame(this.handler)`: the
request id is a fresh non-zero number. -/
def windowRequestAnimationFrame (handler : Handler) : JsM (World M) Nat := fun w =>
  match w.backend.windowService with
  | none => Res.throw JsError.typeError w
  | some _ =>
    let id := w.page.lastFrameId + 1
    Res.ok id { w with page := { w.page with
      lastFrameId := id,
      frames := w.page.frames ++ [{ id := id, owner := w.backend.self, handler := handler }] } }

/-- The call `this.windowService.cancelAnimationFrame(id)`. -/
def windowCancelAnimationFrame (id : Nat) : JsM (World M) Unit := fun w =>
  match w.backend.windowService with
  | none => Res.throw JsError.typeError w
  | some _ =>
    Res.ok () { w with page := { w.page with frames := w.page.frames.filter (fun f => f.id != id) } }

/-- The call `setTimeout(() => this.actions.publishDragSource())`. -/
def setTimeoutPublishDragSource : JsM (World M) Unit := fun w =>
  Res.ok () { w with page := { w.page with timeouts := w.page.timeouts ++
    [{ id := w.page.timeouts.length, owner := w.backend.self,
       handler := Handler.publishDragSource }] } }

/-! ### setup and teardown (lines 38-90) -/

/-- The ten listeners of `addEventListeners` and `removeEventListeners`,
in source order. -/
def topListeners (target : Nat) (owner : Nat) : List Listener :=
  [ { target := target, type := EventType.dragstart, owner := owner,
      handler := Handler.handleTopDragStart, capture := false },
    { target := target, type := EventType.dragstart, owner := owner,
      handler := Handler.handleTopDragStartCapture, capture := true },
    { target := target, type := EventType.dragend, owner := owner,
      handler := Handler.handleTopDragEndCapture, capture := true },
    { target := target, type := EventType.dragenter, owner := owner,
      handler := Handler.handleTopDragEnter, capture := false },
    { target := target, type := EventType.dragenter, owner := owner,
      handler := Handler.handleTopDragEnterCapture, capture := true },
    { target := target, type := EventType.dragleave, owner := owner,
      handler := Handler.handleTopDragLeaveCapture, capture := true },
    { target := target, type := EventType.dragover, owner := owner,
      handler := Handler.handleTopDragOver, capture := false },
    { target := target, type := EventType.dragover, owner := owner,
      handler := Handler.handleTopDragOverCapture, capture := true },
    { target := target, type := EventType.drop, owner := owner,
      handler := Handler.handleTopDrop, capture := false },
    { target := target, type := EventType.drop, owner := owner,
      handler := Handler.handleTopDropCapture, capture := true } ]

/-- The method `addEventListeners(target)`. -/
def addEventListeners (target : Nat) : JsM (World M) Unit := fun w =>
  Res.ok () { w with page := { w.page with
    listeners := (topListeners target w.backend.self).foldl addListener w.page.listeners } }

/-- The method `removeEventListeners(target)`. -/
def removeEventListeners (target : Nat) : JsM (World M) Unit := fun w =>
  Res.ok () { w with page := { w.page with
    listeners := (topListeners target w.backend.self).foldl removeListener w.page.listeners } }

/-- The method `setup()`.  Reading `window.__ReactDndHTML5BackendWindow`
needs the global `window`; once it is read, `this.windowService` is an
object, so the `typeof ... === 'undefined'` return of line 42 is never
taken.  The field is assigned before the `isSetUp` check. -/
def setup : JsM (World M) Unit := do
  let page ← getPage
  match page.window with
  | none => throwJs JsError.referenceError
  | some window =>
    let windowService := match page.customWindow with
      | some custom => custom
      | none => window
    setBackend (fun b => { b with windowService := some windowService })
    if page.isSetUp then
      throwJs JsError.doubleSetup
    else
      setPage (fun p => { p with isSetUp := true })
      addEventListeners windowService

/-- The method `clearCurrentDragSourceNode()`. -/
def clearCurrentDragSourceNode : JsM (World M) Bool := do
  let b ← getBackend
  if b.currentDragSourceNode.isSome then
    setBackend (fun b => { b with
      currentDragSourceNode := none,
      currentDragSourceNodeOffset := none,
      currentDragSourceNodeOffsetChanged := false })
    windowRemoveEventListener EventType.mousemove Handler.endDragIfSourceWasRemovedFromDOM true
    pure true
  else
    pure false

/-- The method `teardown()`.  A request id is truthy when it is not 0. -/
def teardown : JsM (World M) Unit := do
  let b ← getBackend
  match b.windowService with
  | none => pure ()
  | some windowService =>
    setPage (fun p => { p with isSetUp := false })
    removeEventListeners windowService
    let _ ← clearCurrentDragSourceNode
    let b ← getBackend
    match b.asyncEndDragFrameId with
    | some id => if id != 0 then windowCancelAnimationFrame id else pure ()
    | none => pure ()

/-! ### connect methods (lines 92-137) -/

/-- The method `connectDragPreview(sourceId, node, options)`. -/
def connectDragPreview (sourceId : Ident) (node : Option Node) (options : Option PreviewOptions) :
    JsM (World M) Unit :=
  setBackend (fun b => { b with
    sourcePreviewNodeOptions := JsObj.set b.sourcePreviewNodeOptions sourceId options,
    sourcePreviewNodes := JsObj.set b.sourcePreviewNodes sourceId node })

/-- The function `connectDragPreview` returns. -/
def disconnectDragPreview (sourceId : Ident) : JsM (World M) Unit :=
  setBackend (fun b => { b with
    sourcePreviewNodes := JsObj.delete b.sourcePreviewNodes sourceId,
    sourcePreviewNodeOptions := JsObj.delete b.sourcePreviewNodeOptions sourceId })

/-- The method `connectDragSource(sourceId, node, options)`. -/
def connectDragSource (sourceId : Ident) (node : Node) (options : Option SourceOptions) :
    JsM (World M) Unit := do
  setBackend (fun b => { b with
    sourceNodes := JsObj.set b.sourceNodes sourceId node,
    sourceNodeOptions := JsObj.set b.sourceNodeOptions sourceId options })
  let b ← getBackend
  setPage (fun p => { p with
    dom := { p.dom with draggable := node :: p.dom.draggable },
    nodeListeners := p.nodeListeners ++
      [ { node := node, type := EventType.dragstart, owner := b.self,
          handler := NodeHandler.handleDragStart sourceId },
        { node := node, type := EventType.selectstart, owner := b.self,
          handler := NodeHandler.handleSelectStart sourceId } ] })

/-- The function `connectDragSource` returns; `setAttribute('draggable',
false)` leaves the attribute present. -/
def disconnectDragSource (sourceId : Ident) (node : Node) : JsM (World M) Unit := do
  setBackend (fun b => { b with
    sourceNodes := JsObj.delete b.sourceNodes sourceId,
    sourceNodeOptions := JsObj.delete b.sourceNodeOptions sourceId })
  let b ← getBackend
  setPage (fun p => { p with
    nodeListeners := (p.nodeListeners.erase
      { node := node, type := EventType.dragstart, owner := b.self,
        handler := NodeHandler.handleDragStart sourceId }).erase
      { node := node, type := EventType.selectstart, owner := b.self,
        handler := NodeHandler.handleSelectStart sourceId } })

/-- The method `connectDropTarget(targetId, node)`. -/
def connectDropTarget (targetId : Ident) (node : Node) : JsM (World M) Unit := do
  let b ← getBackend
  setPage (fun p => { p with
    nodeListeners := p.nodeListeners ++
      [ { node := node, type := EventType.dragenter, owner := b.self,
          handler := NodeHandler.handleDragEnter targetId },
        { node := node, type := EventType.dragover, owner := b.self,
          handler := NodeHandler.handleDragOver targetId },
        { node := node, type := EventType.drop, owner := b.self,
          handler := NodeHandler.handleDrop targetId } ] })

/-- The function `connectDropTarget` returns. -/
def disconnectDropTarget (targetId : Ident) (node : Node) : JsM (World M) Unit := do
  let b ← getBackend
  setPage (fun p => { p with
    nodeListeners := ((p.nodeListeners.erase
      { node := node, type := EventType.dragenter, owner := b.self,
        handler := NodeHandler.handleDragEnter targetId }).erase
      { node := node, type := EventType.dragover, owner := b.self,
        handler := NodeHandler.handleDragOver targetId }).erase
      { node := node, type := EventType.drop, owner := b.self,
        handler := NodeHandler.handleDrop targetId } })

/-! ### Options of the current source (lines 139-177) -/

/-- The method `getCurrentSourceNodeOptions()`.  lodash `defaults` assigns
the default to every property of its first argument that is undefined and
returns that argument, so registered options are completed in place. -/
def getCurrentSourceNodeOptions (mgr : Manager M) : JsM (World M) SourceOptions := do
  let sourceId ← query mgr.getSourceId
  let b ← getBackend
  match sourceId, (JsObj.get b.sourceNodeOptions sourceId).join with
  | some id, some sourceNodeOptions =>
    let filled : SourceOptions :=
      { dropEffect := some (sourceNodeOptions.dropEffect.getD DropEffect.move) }
    setBackend (fun b => { b with
      sourceNodeOptions := JsObj.set b.sourceNodeOptions id (some filled) })
    pure filled
  | _, _ => pure { dropEffect := some DropEffect.move }

/-- The method `isDraggingNativeItem()`. -/
def isDraggingNativeItem (mgr : Manager M) : JsM (World M) Bool := do
  let itemType ← query mgr.getItemType
  pure (NativeTypes.any (fun t => some t == itemType))

/-- The method `getCurrentDropEffect()`. -/
def getCurrentDropEffect (mgr : Manager M) : JsM (World M) (Option DropEffect) := do
  if (← isDraggingNativeItem mgr) then
    pure (some DropEffect.copy)
  else
    let options ← getCurrentSourceNodeOptions mgr
    pure options.dropEffect

/-- The method `getCurrentSourcePreviewNodeOptions()`; see
`getCurrentSourceNodeOptions` for `defaults`. -/
def getCurrentSourcePreviewNodeOptions (mgr : Manager M) : JsM (World M) PreviewOptions := do
  let sourceId ← query mgr.getSourceId
  let b ← getBackend
  match sourceId, (JsObj.get b.sourcePreviewNodeOptions sourceId).join with
  | some id, some sourcePreviewNodeOptions =>
    let filled : PreviewOptions :=
      { anchorX := some (sourcePreviewNodeOptions.anchorX.getD (1 / 2)),
        anchorY := some (sourcePreviewNodeOptions.anchorY.getD (1 / 2)),
        captureDraggingState :=
          some (sourcePreviewNodeOptions.captureDraggingState.getD false) }
    setBackend (fun b => { b with
      sourcePreviewNodeOptions := JsObj.set b.sourcePreviewNodeOptions id (some filled) })
    pure filled
  | _, _ =>
    pure { anchorX := some (1 / 2), anchorY := some (1 / 2), captureDraggingState := some false }

/-- The method `getSourceClientOffset(sourceId)`, the callback handed to
`actions.beginDrag`, as a function of what it reads: the field `sourceNodes`
and the document. -/
def getSourceClientOffset (host : Host) (sourceNodes : JsObj Node) (dom : Dom)
    (sourceId : Ident) : Option Offset :=
  (JsObj.get sourceNodes (some sourceId)).bind (host.getNodeClientOffset dom)

/-! ### Collaborator calls -/

/-- The call `this.actions.endDrag()`. -/
def actionsEndDrag (mgr : Manager M) : JsM (World M) Unit :=
  act Call.endDrag mgr.endDrag

/-- The call `this.actions.beginDrag(sourceIds, options)`. -/
def actionsBeginDrag (host : Host) (mgr : Manager M) (sourceIds : Option (List Ident))
    (options : Option BeginDragOptions) : JsM (World M) Unit := fun w =>
  act (Call.beginDrag sourceIds options)
    (mgr.beginDrag sourceIds options
      (getSourceClientOffset host w.backend.sourceNodes w.page.dom)) w

/-- The call `this.actions.publishDragSource()`. -/
def actionsPublishDragSource (mgr : Manager M) : JsM (World M) Unit :=
  act Call.publishDragSource mgr.publishDragSource

/-- The call `this.actions.hover(targetIds, { clientOffset })`. -/
def actionsHover (mgr : Manager M) (targetIds : Option (List Ident)) (clientOffset : Offset) :
    JsM (World M) Unit :=
  act (Call.hover targetIds clientOffset) (mgr.hover targetIds clientOffset)

/-- The call `this.actions.drop()`. -/
def actionsDrop (mgr : Manager M) : JsM (World M) Unit :=
  act Call.drop mgr.drop

/-- The call `this.registry.addSource(type, source)`. -/
def registryAddSource (mgr : Manager M) (type : ItemType) : JsM (World M) Ident := fun w =>
  Res.ok (mgr.addSource type w.session).1
    { w with session := (mgr.addSource type w.session).2,
             trace := w.trace ++ [Call.addSource type] }

/-- The call `this.registry.removeSource(handle)`. -/
def registryRemoveSource (mgr : Manager M) (handle : Option Ident) : JsM (World M) Unit :=
  act (Call.removeSource handle) (mgr.removeSource handle)

/-- The call `e.preventDefault()`. -/
def preventDefault : JsM (World M) Unit := record Call.preventDefault

/-- The assignment `e.dataTransfer.dropEffect = value`; nothing is
recorded for an undefined value. -/
def setDropEffect (value : Option DropEffect) : JsM (World M) Unit :=
  match value with
  | some v => record (Call.setDropEffect v)
  | none => pure ()

/-! ### Native items and the tracked source node (lines 179-265) -/

/-- The method `beginDragNativeItem(type)`. -/
def beginDragNativeItem (host : Host) (mgr : Manager M) (type : ItemType) :
    JsM (World M) Unit := do
  let _ ← clearCurrentDragSourceNode
  setBackend (fun b => { b with currentNativeSource := some { type := type, item := none } })
  let handle ← registryAddSource mgr type
  setBackend (fun b => { b with currentNativeHandle := some handle })
  actionsBeginDrag host mgr (some [handle]) none
  if host.isFirefox then
    windowAddEventListener EventType.mouseover Handler.asyncEndDragNativeItem true
  else
    pure ()

/-- The method `asyncEndDragNativeItem()`. -/
def asyncEndDragNativeItem (host : Host) : JsM (World M) Unit := do
  let id ← windowRequestAnimationFrame Handler.endDragNativeItem
  setBackend (fun b => { b with asyncEndDragFrameId := some id })
  if host.isFirefox then
    windowRemoveEventListener EventType.mouseover Handler.asyncEndDragNativeItem true
    setBackend (fun b => { b with enterLeaveCounter := b.enterLeaveCounter.reset })
  else
    pure ()

/-- The method `endDragNativeItem()`. -/
def endDragNativeItem (mgr : Manager M) : JsM (World M) Unit := do
  if !(← isDraggingNativeItem mgr) then
    pure ()
  else
    actionsEndDrag mgr
    let b ← getBackend
    registryRemoveSource mgr b.currentNativeHandle
    setBackend (fun b => { b with currentNativeHandle := none, currentNativeSource := none })

/-- The call `document.body.contains(node)`; false for null. -/
def documentBodyContains (dom : Dom) (node : Option Node) : Bool :=
  match node with
  | none => false
  | some n => decide (n ∈ dom.body)

/-- The method `endDragIfSourceWasRemovedFromDOM()`. -/
def endDragIfSourceWasRemovedFromDOM (mgr : Manager M) : JsM (World M) Unit := do
  let b ← getBackend
  let node := b.currentDragSourceNode
  let page ← getPage
  if documentBodyContains page.dom node then
    pure ()
  else
    let cleared ← clearCurrentDragSourceNode
    if cleared then
      actionsEndDrag mgr
    else
      pure ()

/-- The method `setCurrentDragSourceNode(node)`. -/
def setCurrentDragSourceNode (host : Host) (node : Node) : JsM (World M) Unit := do
  let _ ← clearCurrentDragSourceNode
  let page ← getPage
  setBackend (fun b => { b with
    currentDragSourceNode := some node,
    currentDragSourceNodeOffset := host.getNodeClientOffset page.dom node,
    currentDragSourceNodeOffsetChanged := false })
  windowAddEventListener EventType.mousemove Handler.endDragIfSourceWasRemovedFromDOM true

/-- The method `checkIfCurrentDragSourceRectChanged()`. -/
def checkIfCurrentDragSourceRectChanged (host : Host) : JsM (World M) Bool := do
  let b ← getBackend
  match b.currentDragSourceNode with
  | none => pure false
  | some node =>
    if b.currentDragSourceNodeOffsetChanged then
      pure true
    else
      let page ← getPage
      let changed := !host.shallowEqual (host.getNodeClientOffset page.dom node)
        b.currentDragSourceNodeOffset
      setBackend (fun b => { b with currentDragSourceNodeOffsetChanged := changed })
      pure changed

/-! ### Event handlers (lines 267-557) -/

/-- The call `ids.unshift(id)` on an accumulator field; a TypeError when
the field is null or undefined. -/
def unshift (ids : Option (List Ident)) (id : Ident) : Except JsError (List Ident) :=
  match ids with
  | none => Except.error JsError.typeError
  | some l => Except.ok (id :: l)

/-- The method `handleTopDragStartCapture()`. -/
def handleTopDragStartCapture : JsM (World M) Unit := do
  let _ ← clearCurrentDragSourceNode
  setBackend (fun b => { b with dragStartSourceIds := some [] })

/-- The method `handleDragStart(e, sourceId)`. -/
def handleDragStart (sourceId : Ident) : JsM (World M) Unit := do
  let b ← getBackend
  match unshift b.dragStartSourceIds sourceId with
  | Except.error err => throwJs err
  | Except.ok ids => setBackend (fun b => { b with dragStartSourceIds := some ids })

/-- The call `dataTransfer.setData('application/json', {})`. -/
def setData (dataTransfer : DataTransfer) : JsM (World M) Unit := do
  record Call.setData
  if dataTransfer.setDataThrows then throwJs JsError.typeError else pure ()

/-- The method `handleTopDragStart(e)`. -/
def handleTopDragStart (host : Host) (mgr : Manager M) (e : DragEvent) : JsM (World M) Unit := do
  let b ← getBackend
  let dragStartSourceIds := b.dragStartSourceIds
  setBackend (fun b => { b with dragStartSourceIds := none })
  let clientOffset := host.getEventClientOffset e
  if (← query mgr.isDragging) then
    actionsEndDrag mgr
  else
    pure ()
  actionsBeginDrag host mgr dragStartSourceIds
    (some { publishSource := false, clientOffset := clientOffset })
  let dataTransfer := e.dataTransfer
  match host.matchNativeItemType dataTransfer with
  | Except.error _ => pure ()
  | Except.ok nativeType =>
    if (← query mgr.isDragging) then
      if dataTransfer.hasSetDragImage then
        let sourceId ← query mgr.getSourceId
        let b ← getBackend
        let sourceNode := JsObj.get b.sourceNodes sourceId
        let dragPreview := ((JsObj.get b.sourcePreviewNodes sourceId).join).orElse
          (fun _ => sourceNode)
        match dragPreview with
        | some preview =>
          let options ← getCurrentSourcePreviewNodeOptions mgr
          let page ← getPage
          let dragPreviewOffset := host.getDragPreviewOffset page.dom sourceNode preview
            clientOffset (options.anchorX, options.anchorY)
          record (Call.setDragImage preview dragPreviewOffset.x dragPreviewOffset.y)
        | none => pure ()
      else
        pure ()
      tryCatch (setData dataTransfer) (fun _ => pure ())
      setCurrentDragSourceNode host e.target
      let options ← getCurrentSourcePreviewNodeOptions mgr
      if !truthy options.captureDraggingState then
        setTimeoutPublishDragSource
      else
        actionsPublishDragSource mgr
    else
      match nativeType with
      | some type => beginDragNativeItem host mgr type
      | none =>
        let page ← getPage
        if dataTransfer.types.isNone &&
            (decide (e.target ∈ page.dom.noHasAttribute) ||
              !decide (e.target ∈ page.dom.draggable)) then
          pure ()
        else
          preventDefault

/-- The method `handleTopDragEndCapture()`. -/
def handleTopDragEndCapture (mgr : Manager M) : JsM (World M) Unit := do
  let cleared ← clearCurrentDragSourceNode
  if cleared then
    actionsEndDrag mgr
  else
    pure ()

/-- The method `handleTopDragEnterCapture(e)`; the classification is not
inside a `try`, so its exception leaves the handler. -/
def handleTopDragEnterCapture (host : Host) (mgr : Manager M) (e : DragEvent) :
    JsM (World M) Unit := do
  setBackend (fun b => { b with dragEnterTargetIds := some [] })
  let b ← getBackend
  let entered := b.enterLeaveCounter.enter e.target
  setBackend (fun b => { b with enterLeaveCounter := entered.2 })
  let isFirstEnter := entered.1
  if !isFirstEnter || (← query mgr.isDragging) then
    pure ()
  else
    match host.matchNativeItemType e.dataTransfer with
    | Except.error err => throwJs err
    | Except.ok (some nativeType) => beginDragNativeItem host mgr nativeType
    | Except.ok none => pure ()

/-- The method `handleDragEnter(e, targetId)`. -/
def handleDragEnter (targetId : Ident) : JsM (World M) Unit := do
  let b ← getBackend
  match unshift b.dragEnterTargetIds targetId with
  | Except.error err => throwJs err
  | Except.ok ids => setBackend (fun b => { b with dragEnterTargetIds := some ids })

/-- The call `ids.some(targetId => this.monitor.canDropOnTarget(targetId))`. -/
def someCanDrop (mgr : Manager M) (ids : Option (List Ident)) : JsM (World M) Bool := do
  match ids with
  | none => throwJs JsError.typeError
  | some l =>
    let canDropOnTarget ← query mgr.canDropOnTarget
    pure (l.any canDropOnTarget)

/-- The method `handleTopDragEnter(e)`. -/
def handleTopDragEnter (host : Host) (mgr : Manager M) (e : DragEvent) : JsM (World M) Unit := do
  let b ← getBackend
  let dragEnterTargetIds := b.dragEnterTargetIds
  setBackend (fun b => { b with dragEnterTargetIds := some [] })
  if !(← query mgr.isDragging) then
    pure ()
  else
    if !host.isFirefox then
      actionsHover mgr dragEnterTargetIds (host.getEventClientOffset e)
    else
      pure ()
    let canDrop ← someCanDrop mgr dragEnterTargetIds
    if canDrop then
      preventDefault
      let dropEffect ← getCurrentDropEffect mgr
      setDropEffect dropEffect
    else
      pure ()

/-- The method `handleTopDragOverCapture()`. -/
def handleTopDragOverCapture : JsM (World M) Unit :=
  setBackend (fun b => { b with dragOverTargetIds := some [] })

/-- The method `handleDragOver(e, targetId)`. -/
def handleDragOver (targetId : Ident) : JsM (World M) Unit := do
  let b ← getBackend
  match unshift b.dragOverTargetIds targetId with
  | Except.error err => throwJs err
  | Except.ok ids => setBackend (fun b => { b with dragOverTargetIds := some ids })

/-- The method `handleTopDragOver(e)`. -/
def handleTopDragOver (host : Host) (mgr : Manager M) (e : DragEvent) : JsM (World M) Unit := do
  let b ← getBackend
  let dragOverTargetIds := b.dragOverTargetIds
  setBackend (fun b => { b with dragOverTargetIds := some [] })
  if !(← query mgr.isDragging) then
    preventDefault
    setDropEffect (some DropEffect.none)
  else
    actionsHover mgr dragOverTargetIds (host.getEventClientOffset e)
    let canDrop ← someCanDrop mgr dragOverTargetIds
    if canDrop then
      preventDefault
      let dropEffect ← getCurrentDropEffect mgr
      setDropEffect dropEffect
    else
      let native ← isDraggingNativeItem mgr
      if native then
        preventDefault
        setDropEffect (some DropEffect.none)
      else
        let changed ← checkIfCurrentDragSourceRectChanged host
        if changed then
          preventDefault
          setDropEffect (some DropEffect.move)
        else
          pure ()

/-- The statement `host && host.recordWarning && host.recordWarning(message,
this.monitor.getItemType())` of the two `catch` blocks. -/
def hostRecordWarning (host : Host) (mgr : Manager M) (message : String) : JsM (World M) Unit :=
  match host.globalHost with
  | GlobalHost.undeclared => throwJs JsError.referenceError
  | GlobalHost.falsy => pure ()
  | GlobalHost.withoutRecordWarning => pure ()
  | GlobalHost.sink => do
    let itemType ← query mgr.getItemType
    record (Call.recordWarning message itemType)

/-- The method `handleTopDragLeaveCapture(e)`. -/
def handleTopDragLeaveCapture (host : Host) (mgr : Manager M) (access : EventAccess)
    (e : DragEvent) : JsM (World M) Unit := do
  let native ← isDraggingNativeItem mgr
  if native then
    tryCatch
      (if access.preventDefaultThrows then throwJs JsError.permissionDenied else preventDefault)
      (fun _ => hostRecordWarning host mgr
        "Error when trying to access e.preventDefault in handleTopDragLeaveCapture")
  else
    pure ()
  let isLastLeave ← tryCatch
    (do
      if access.targetThrows then
        throwJs JsError.permissionDenied
      else
        let b ← getBackend
        let left := b.enterLeaveCounter.leave e.target
        setBackend (fun b => { b with enterLeaveCounter := left.2 })
        pure left.1)
    (fun _ => do
      hostRecordWarning host mgr
        "Error when trying to access e.target in handleTopDragLeaveCapture"
      pure false)
  if !isLastLeave then
    pure ()
  else
    let native ← isDraggingNativeItem mgr
    if native then
      endDragNativeItem mgr
    else
      pure ()

/-- The method `handleTopDropCapture(e)`; calling a method of
`this.currentNativeSource` while the field is null is a TypeError. -/
def handleTopDropCapture (mgr : Manager M) (e : DragEvent) : JsM (World M) Unit := do
  setBackend (fun b => { b with dropTargetIds := some [] })
  preventDefault
  if (← isDraggingNativeItem mgr) then
    let b ← getBackend
    match b.currentNativeSource with
    | none => throwJs JsError.typeError
    | some source =>
      record (Call.mutateItemByReadingDataTransfer e.dataTransfer)
      setBackend (fun b => { b with
        currentNativeSource := some { source with item := some e.dataTransfer } })
  else
    pure ()
  setBackend (fun b => { b with enterLeaveCounter := b.enterLeaveCounter.reset })

/-- The method `handleDrop(e, targetId)`. -/
def handleDrop (targetId : Ident) : JsM (World M) Unit := do
  let b ← getBackend
  match unshift b.dropTargetIds targetId with
  | Except.error err => throwJs err
  | Except.ok ids => setBackend (fun b => { b with dropTargetIds := some ids })

/-- The method `handleTopDrop(e)`. -/
def handleTopDrop (host : Host) (mgr : Manager M) (e : DragEvent) : JsM (World M) Unit := do
  let b ← getBackend
  let dropTargetIds := b.dropTargetIds
  setBackend (fun b => { b with dropTargetIds := some [] })
  if !(← query mgr.isDragging) then
    pure ()
  else
    actionsHover mgr dropTargetIds (host.getEventClientOffset e)
    actionsDrop mgr
    if (← isDraggingNativeItem mgr) then
      endDragNativeItem mgr
    else
      endDragIfSourceWasRemovedFromDOM mgr

/-! ### Event delivery -/

/-- The browser delivering one event to its listeners in order.  An
exception thrown by a listener is reported by the browser and does not stop
the delivery: the next listener runs on the state the previous one left. -/
def deliver (listeners : List (JsM (World M) Unit)) (w : World M) : World M :=
  listeners.foldl (fun s listener => (listener s).state) w

/-- A `dragstart` event reaching the window's capture listener, then the
connected source nodes with ids `sourceIds` in that order, then the window's
bubble listener. -/
def dragStartEvent (host : Host) (mgr : Manager M) (e : DragEvent) (sourceIds : List Ident) :
    List (JsM (World M) Unit) :=
  [handleTopDragStartCapture] ++ sourceIds.map handleDragStart ++ [handleTopDragStart host mgr e]

/-- A `dragenter` event: capture listener, connected target nodes, bubble
listener. -/
def dragEnterEvent (host : Host) (mgr : Manager M) (e : DragEvent) (targetIds : List Ident) :
    List (JsM (World M) Unit) :=
  [handleTopDragEnterCapture host mgr e] ++ targetIds.map handleDragEnter ++
    [handleTopDragEnter host mgr e]

/-- A `dragover` event: capture listener, connected target nodes, bubble
listener. -/
def dragOverEvent (host : Host) (mgr : Manager M) (e : DragEvent) (targetIds : List Ident) :
    List (JsM (World M) Unit) :=
  [handleTopDragOverCapture] ++ targetIds.map handleDragOver ++ [handleTopDragOver host mgr e]

/-- A `drop` event: capture listener, connected target nodes, bubble
listener. -/
def dropEvent (host : Host) (mgr : Manager M) (e : DragEvent) (targetIds : List Ident) :
    List (JsM (World M) Unit) :=
  [handleTopDropCapture mgr e] ++ targetIds.map handleDrop ++ [handleTopDrop host mgr e]

/-- The calls a run appended to the trace of the state it started in. -/
def callsSince (before after : World M) : List Call :=
  after.trace.drop before.trace.length

/-- Whatever the start state, `m` only appends to the trace, and every
call it appends satisfies `P`. -/
structure Emits {α : Type} (P : Call → Prop) (m : JsM (World M) α) : Prop where
  run : ∀ w : World M, ∃ calls : List Call,
    (m w).state.trace = w.trace ++ calls ∧ ∀ c ∈ calls, P c

end Methods

/-! ## Several instances on one page -/

/-- A page with the instances created on it (the instance with
`self = i` at index `i`), which share the class-level flag and the window. -/
structure Installation (M : Type) where
  page : Page
  session : M
  backends : List Backend
  trace : List Call

/-- A lifecycle call on one of the instances. -/
inductive LifecycleCall
  | setup (inst : Nat)
  | teardown (inst : Nat)
  deriving DecidableEq, Repr

/-- Run a method on instance `i` of an installation; the result says
whether it threw. -/
def Installation.onInstance {M : Type} (i : Nat) (m : JsM (World M) Unit)
    (s : Installation M) : Option JsError × Installation M :=
  match s.backends.get? i with
  | none => (some JsError.typeError, s)
  | some b =>
    let r := m { page := s.page, session := s.session, backend := b, trace := s.trace }
    (r.thrown,
      { page := r.state.page, session := r.state.session,
        backends := s.backends.set i r.state.backend, trace := r.state.trace })

/-- One lifecycle call. -/
def Installation.call {M : Type} (c : LifecycleCall) (s : Installation M) :
    Option JsError × Installation M :=
  match c with
  | LifecycleCall.setup i => Installation.onInstance i setup s
  | LifecycleCall.teardown i => Installation.onInstance i teardown s

/-- A sequence of lifecycle calls; a call that throws leaves the state it
reached, and the caller goes on. -/
def Installation.calls {M : Type} (cs : List LifecycleCall) (s : Installation M) :
    Installation M :=
  cs.foldl (fun s c => (Installation.call c s).2) s

/-- The instances that have one of their top-level drag listeners
registered on window service `target`. -/
def installedInstances (p : Page) (target : Nat) (instances : List Nat) : List Nat :=
  instances.filter (fun i => (topListeners target i).any (fun l => decide (l ∈ p.listeners)))

/-! ## A sample collaborator and host, for concrete runs -/

/-- The state of the sample manager: the monitor's three answers and the
registry of sources with their item types. -/
structure SampleSession where
  dragging : Bool
  itemType : Option ItemType
  sourceId : Option Ident
  sources : List (Ident × ItemType)
  nextHandle : Nat
  deriving DecidableEq, Repr

/-- A sample manager: `beginDrag` starts a session for the first listed id
that is a registered source, `endDrag` ends it, `addSource` hands out fresh
handles, every target accepts a drop while dragging. -/
def sampleManager : Manager SampleSession where
  isDragging s := s.dragging
  getItemType s := s.itemType
  getSourceId s := s.sourceId
  canDropOnTarget s _ := s.dragging
  beginDrag ids _ _ s :=
    match (ids.getD []).find? (fun id => s.sources.any (fun p => p.1 == id)) with
    | some id =>
      { s with dragging := true, sourceId := some id,
               itemType := (s.sources.find? (fun p => p.1 == id)).map (fun p => p.2) }
    | none => s
  publishDragSource s := s
  hover _ _ s := s
  drop s := s
  endDrag s := { s with dragging := false, sourceId := none, itemType := none }
  addSource type s :=
    (s.nextHandle, { s with sources := (s.nextHandle, type) :: s.sources,
                            nextHandle := s.nextHandle + 1 })
  removeSource handle s :=
    match handle with
    | some id => { s with sources := s.sources.filter (fun p => p.1 != id) }
    | none => s

/-- A sample host: a payload whose `types` is null cannot be classified, one
listing `Files` is a file, one listing `unreadable` cannot be read. -/
def sampleHost (isFirefox : Bool) : Host where
  isFirefox := isFirefox
  matchNativeItemType dt :=
    match dt.types with
    | none => Except.ok none
    | some ts =>
      if "unreadable" ∈ ts then Except.error JsError.unreadable
      else if "Files" ∈ ts then Except.ok (some ItemType.FILE)
      else Except.ok none
  getNodeClientOffset dom node := (dom.layout.find? (fun p => p.1 == node)).map (fun p => p.2)
  getEventClientOffset e := { x := e.clientX, y := e.clientY }
  getDragPreviewOffset _ _ _ clientOffset _ := clientOffset
  shallowEqual a b := a == b

/-- A sample page: a window, no custom window service, nothing registered;
nodes 1 and 2 are in the document. -/
def samplePage : Page :=
  { window := some 0, customWindow := none, isSetUp := false, listeners := [],
    nodeListeners := [], frames := [], lastFrameId := 0, timeouts := [],
    dom := { body := [1, 2], draggable := [], noHasAttribute := [], layout := [] } }

/-- A sample session: nothing is dragged, source 1 is registered. -/
def sampleSession : SampleSession :=
  { dragging := false, itemType := none, sourceId := none,
    sources := [(1, ItemType.other 0)], nextHandle := 100 }

/-- A sample world: a fresh instance on the sample page. -/
def sampleWorld : World SampleSession :=
  { page := samplePage, session := sampleSession, backend := Backend.new 0, trace := [] }

/-- A sample event on node 1 with the given payload types. -/
def sampleEvent (types : Option (List String)) : DragEvent :=
  { target := 1, dataTransfer := { types := types, hasSetDragImage := true, setDataThrows := false },
    clientX := 10, clientY := 20 }

/-- Two fresh instances on the sample page. -/
def sampleInstallation : Installation SampleSession :=
  { page := samplePage, session := sampleSession,
    backends := [Backend.new 0, Backend.new 1], trace := [] }

/-- Three fresh instances on the sample page. -/
def sampleThreeInstances : Installation SampleSession :=
  { page := samplePage, session := sampleSession,
    backends := [Backend.new 0, Backend.new 1, Backend.new 2], trace := [] }

/-- The sample world after `setup()` and a `dragenter` of a file from
outside the document: a native drag is in progress. -/
def sampleNativeDrag : World SampleSession :=
  deliver (dragEnterEvent (sampleHost false) sampleManager (sampleEvent (some ["Files"])) [])
    (setup sampleWorld).state

/-- The sample world after `setup()`, `connectDragSource(1, node 1)` and a
`dragstart` on that source: source 1 is dragged and node 1 is tracked. -/
def sampleSourceDrag : World SampleSession :=
  deliver (dragStartEvent (sampleHost false) sampleManager (sampleEvent none) [1])
    (connectDragSource 1 1 none (setup sampleWorld).state).state

/-- The world `sampleSourceDrag` after node 1 has been removed from the
document. -/
def sampleSourceRemoved : World SampleSession :=
  { sampleSourceDrag with
    page := { sampleSourceDrag.page with
      dom := { sampleSourceDrag.page.dom with body := [2] } } }

/-- The sample world on a host where `isFirefox()` is true, after `setup()`
and a `dragenter` of a file from outside the document. -/
def sampleFirefoxNativeDrag : World SampleSession :=
  deliver (dragEnterEvent (sampleHost true) sampleManager (sampleEvent (some ["Files"])) [])
    (setup sampleWorld).state

/-- The sample world on a host where `isFirefox()` is true, after `setup()`
and a `dragstart` inside the document whose payload classifies as a file and
which no connected source handles. -/
def sampleFirefoxNativeDragStart : World SampleSession :=
  deliver (dragStartEvent (sampleHost true) sampleManager (sampleEvent (some ["Files"])) [])
    (setup sampleWorld).state

/-- The sample world on a host where `isFirefox()` is true, after `setup()`,
`connectDragSource(1, node 1)` and a `dragstart` on that source. -/
def sampleFirefoxSourceDrag : World SampleSession :=
  deliver (dragStartEvent (sampleHost true) sampleManager (sampleEvent none) [1])
    (connectDragSource 1 1 none (setup sampleWorld).state).state

/-- Whether a recorded call is `actions.hover`. -/
def Call.isHover : Call → Bool
  | Call.hover _ _ => true
  | _ => false

/-- Whether `matchNativeItemType` returns on the event's payload. -/
def payloadReadable (host : Host) (e : DragEvent) : Bool :=
  match host.matchNativeItemType e.dataTransfer with
  | Except.ok _ => true
  | Except.error _ => false

/-- The collaborators' state right after the `beginDrag` call of
`handleTopDragStart` (line 288) when the handler starts in `w`. -/
def sessionAfterBeginDrag {M : Type} (host : Host) (mgr : Manager M) (e : DragEvent)
    (w : World M) : M :=
  mgr.beginDrag w.backend.dragStartSourceIds
    (some { publishSource := false, clientOffset := host.getEventClientOffset e })
    (getSourceClientOffset host w.backend.sourceNodes w.page.dom)
    (if mgr.isDragging w.session then mgr.endDrag w.session else w.session)

/-- The sample world after `setup()` and `connectDragSource(1, node 1)`,
when a `dragstart` has passed the capture listener and the node of source 1. -/
def sampleBeforeBubble : World SampleSession :=
  deliver [handleTopDragStartCapture, handleDragStart 1]
    (connectDragSource 1 1 none (setup sampleWorld).state).state

/-- The sample world after `setup()` when a gesture's `dragstart` has passed
the capture listener and reached no connected source: `dragStartSourceIds` is
the empty list and no session is active. -/
def sampleEmptyStart : World SampleSession :=
  (handleTopDragStartCapture (setup sampleWorld).state).state

/-- The sample host with the global `host` as given. -/
def sampleHostWith (globalHost : GlobalHost) : Host :=
  { sampleHost false with globalHost := globalHost }

/-- The world `sampleNativeDrag` (a native drag with handle 100 is in
progress) after a `dragstart` of another file that no connected source
handles. -/
def sampleSecondNativeDrag : World SampleSession :=
  deliver (dragStartEvent (sampleHost false) sampleManager (sampleEvent (some ["Files"])) [])
    sampleNativeDrag

/-- The two methods that track and release the drag source node. -/
inductive TrackingCall
  | setCurrentDragSourceNode (node : Node)
  | clearCurrentDragSourceNode
  deriving DecidableEq, Repr

/-- Run one tracking call; the state it reaches is kept whether or not it
threw. -/
def runTrackingCall {M : Type} (host : Host) (c : TrackingCall) (w : World M) : World M :=
  match c with
  | TrackingCall.setCurrentDragSourceNode node => (setCurrentDragSourceNode host node w).state
  | TrackingCall.clearCurrentDragSourceNode => (clearCurrentDragSourceNode w).state

/-- Run a sequence of tracking calls. -/
def runTrackingCalls {M : Type} (host : Host) (calls : List TrackingCall) (w : World M) :
    World M :=
  calls.foldl (fun s c => runTrackingCall host c s) w

/-- The listener `('mousemove', this.endDragIfSourceWasRemovedFromDOM, true)`
of instance `owner` on window service `target`. -/
def mousemoveListener (target : Nat) (owner : Nat) : Listener :=
  { target := target, type := EventType.mousemove, owner := owner,
    handler := Handler.endDragIfSourceWasRemovedFromDOM, capture := true }

/-- The value a run returned, `none` when it threw. -/
def Res.value {σ α : Type} : Res σ α → Option α
  | Res.ok a _ => some a
  | Res.throw _ _ => none

/-- What can happen between two rect checks without clearing or replacing
the tracked node: another call of `checkIfCurrentDragSourceRectChanged()`, or
the document being laid out anew (any node may move anywhere). -/
inductive RectStep
  | check
  | layout (dom : Dom)
  deriving DecidableEq, Repr

/-- Run the steps in order and collect what each
`checkIfCurrentDragSourceRectChanged()` call returned. -/
def rectCheckResults {M : Type} (host : Host) : List RectStep → World M → List (Option Bool)
  | [], _ => []
  | RectStep.check :: rest, w =>
    (checkIfCurrentDragSourceRectChanged host w).value ::
      rectCheckResults host rest (checkIfCurrentDragSourceRectChanged host w).state
  | RectStep.layout dom :: rest, w =>
    rectCheckResults host rest { w with page := { w.page with dom := dom } }

/-- The world `sampleSourceDrag` (source 1 dragged, node 1 tracked with no
measured offset) after a layout in which node 1 has an offset. -/
def sampleSourceMoved : World SampleSession :=
  { sampleSourceDrag with
    page := { sampleSourceDrag.page with
      dom := { sampleSourceDrag.page.dom with layout := [(1, { x := 5, y := 5 })] } } }

/-! ## Running method bodies -/

section Lemmas

variable {M : Type} {σ α β : Type}

@[simp] theorem run_pure (a : α) (s : σ) : (pure a : JsM σ α) s = Res.ok a s := rfl

@[simp] theorem run_bind (x : JsM σ α) (f : α → JsM σ β) (s : σ) :
    (x >>= f) s = match x s with
      | Res.ok a s1 => f a s1
      | Res.throw e s1 => Res.throw e s1 := rfl

@[simp] theorem state_ok (a : α) (s : σ) : (Res.ok a s : Res σ α).state = s := rfl

@[simp] theorem state_throw (e : JsError) (s : σ) : (Res.throw e s : Res σ α).state = s := rfl

@[simp] theorem thrown_ok (a : α) (s : σ) : (Res.ok a s : Res σ α).thrown = none := rfl

@[simp] theorem thrown_throw (e : JsError) (s : σ) :
    (Res.throw e s : Res σ α).thrown = some e := rfl

/-! ### Which calls a method can append to the trace -/

theorem emits_of_silent {P : Call → Prop} (m : JsM (World M) α)
    (h : ∀ w, (m w).state.trace = w.trace) : Emits P m := by
  constructor
  intro w
  exact ⟨[], by simp [h w], by simp⟩

theorem emits_pure {P : Call → Prop} (a : α) : Emits P (pure a : JsM (World M) α) :=
  emits_of_silent _ (fun _ => rfl)

theorem emits_throwJs {P : Call → Prop} (e : JsError) :
    Emits P (throwJs e : JsM (World M) α) :=
  emits_of_silent _ (fun _ => rfl)

theorem emits_bind {P : Call → Prop} {m : JsM (World M) α} {f : α → JsM (World M) β}
    (hm : Emits P m) (hf : ∀ a, Emits P (f a)) : Emits P (m >>= f) := by
  constructor
  intro w
  obtain ⟨l1, h1, p1⟩ := hm.run w
  rw [run_bind]
  cases hr : m w with
  | ok a s1 =>
    rw [hr] at h1
    obtain ⟨l2, h2, p2⟩ := (hf a).run s1
    refine ⟨l1 ++ l2, ?_, ?_⟩
    · simp only [state_ok] at h1
      simp [h2, h1]
    · intro c hc
      rcases List.mem_append.mp hc with h | h
      · exact p1 c h
      · exact p2 c h
  | throw e s1 =>
    rw [hr] at h1
    exact ⟨l1, by simpa using h1, p1⟩

theorem emits_tryCatch {P : Call → Prop} {body : JsM (World M) α}
    {handler : JsError → JsM (World M) α}
    (hb : Emits P body) (hh : ∀ e, Emits P (handler e)) : Emits P (tryCatch body handler) := by
  constructor
  intro w
  obtain ⟨l1, h1, p1⟩ := hb.run w
  unfold tryCatch
  cases hr : body w with
  | ok a s1 =>
    rw [hr] at h1
    exact ⟨l1, by simpa using h1, p1⟩
  | throw e s1 =>
    rw [hr] at h1
    obtain ⟨l2, h2, p2⟩ := (hh e).run s1
    refine ⟨l1 ++ l2, ?_, ?_⟩
    · simp only [state_throw] at h1
      simp [h2, h1]
    · intro c hc
      rcases List.mem_append.mp hc with h | h
      · exact p1 c h
      · exact p2 c h

theorem emits_ite {P : Call → Prop} (c : Prop) [Decidable c] {a b : JsM (World M) α}
    (ha : Emits P a) (hb : Emits P b) : Emits P (if c then a else b) := by
  split
  · exact ha
  · exact hb

theorem emits_record {P : Call → Prop} (c : Call) (h : P c) :
    Emits P (record c : JsM (World M) Unit) := by
  constructor
  intro w
  exact ⟨[c], rfl, by simpa using h⟩

theorem emits_act {P : Call → Prop} (c : Call) (f : M → M) (h : P c) :
    Emits P (act c f : JsM (World M) Unit) := by
  constructor
  intro w
  exact ⟨[c], rfl, by simpa using h⟩

theorem emits_getBackend {P : Call → Prop} : Emits P (getBackend : JsM (World M) Backend) :=
  emits_of_silent _ (fun _ => rfl)

theorem emits_setBackend {P : Call → Prop} (f : Backend → Backend) :
    Emits P (setBackend f : JsM (World M) Unit) :=
  emits_of_silent _ (fun _ => rfl)

theorem emits_getPage {P : Call → Prop} : Emits P (getPage : JsM (World M) Page) :=
  emits_of_silent _ (fun _ => rfl)

theorem emits_setPage {P : Call → Prop} (f : Page → Page) :
    Emits P (setPage f : JsM (World M) Unit) :=
  emits_of_silent _ (fun _ => rfl)

theorem emits_query {P : Call → Prop} (q : M → α) : Emits P (query q : JsM (World M) α) :=
  emits_of_silent _ (fun _ => rfl)

theorem emits_windowAddEventListener {P : Call → Prop} (t : EventType) (h : Handler) (c : Bool) :
    Emits P (windowAddEventListener t h c : JsM (World M) Unit) := by
  apply emits_of_silent
  intro w
  unfold windowAddEventListener
  cases w.backend.windowService <;> rfl

theorem emits_windowRemoveEventListener {P : Call → Prop} (t : EventType) (h : Handler)
    (c : Bool) : Emits P (windowRemoveEventListener t h c : JsM (World M) Unit) := by
  apply emits_of_silent
  intro w
  unfold windowRemoveEventListener
  cases w.backend.windowService <;> rfl

theorem emits_setTimeoutPublishDragSource {P : Call → Prop} :
    Emits P (setTimeoutPublishDragSource : JsM (World M) Unit) :=
  emits_of_silent _ (fun _ => rfl)

theorem emits_clearCurrentDragSourceNode {P : Call → Prop} :
    Emits P (clearCurrentDragSourceNode : JsM (World M) Bool) := by
  unfold clearCurrentDragSourceNode
  refine emits_bind emits_getBackend (fun b => emits_ite _ ?_ (emits_pure _))
  exact emits_bind (emits_setBackend _) (fun _ =>
    emits_bind (emits_windowRemoveEventListener _ _ _) (fun _ => emits_pure _))

theorem emits_setCurrentDragSourceNode {P : Call → Prop} (host : Host) (node : Node) :
    Emits P (setCurrentDragSourceNode host node : JsM (World M) Unit) := by
  unfold setCurrentDragSourceNode
  exact emits_bind emits_clearCurrentDragSourceNode (fun _ =>
    emits_bind emits_getPage (fun _ =>
      emits_bind (emits_setBackend _) (fun _ => emits_windowAddEventListener _ _ _)))

theorem emits_getCurrentSourcePreviewNodeOptions {P : Call → Prop} (mgr : Manager M) :
    Emits P (getCurrentSourcePreviewNodeOptions mgr) := by
  unfold getCurrentSourcePreviewNodeOptions
  refine emits_bind (emits_query _) (fun sourceId => emits_bind emits_getBackend (fun b => ?_))
  split
  · exact emits_bind (emits_setBackend _) (fun _ => emits_pure _)
  · exact emits_pure _

theorem emits_setData {P : Call → Prop} (dataTransfer : DataTransfer) (h : P Call.setData) :
    Emits P (setData dataTransfer : JsM (World M) Unit) := by
  unfold setData
  exact emits_bind (emits_record _ h) (fun _ => emits_ite _ (emits_throwJs _) (emits_pure _))

theorem emits_beginDragNativeItem {P : Call → Prop} (host : Host) (mgr : Manager M)
    (type : ItemType) (hadd : P (Call.addSource type))
    (hbegin : ∀ handle, P (Call.beginDrag (some [handle]) none)) :
    Emits P (beginDragNativeItem host mgr type) := by
  unfold beginDragNativeItem
  refine emits_bind emits_clearCurrentDragSourceNode (fun _ =>
    emits_bind (emits_setBackend _) (fun _ => emits_bind ?_ (fun handle =>
      emits_bind (emits_setBackend _) (fun _ => emits_bind ?_ (fun _ =>
        emits_ite _ (emits_windowAddEventListener _ _ _) (emits_pure _))))))
  · constructor
    intro w
    exact ⟨[Call.addSource type], rfl, by simpa using hadd⟩
  · constructor
    intro w
    exact ⟨[Call.beginDrag (some [handle]) none], rfl, by simpa using hbegin handle⟩

end Lemmas

section Claims

variable {M : Type}

theorem exists_rest_of_emits {α : Type} {P : Call → Prop} {m : JsM (World M) α}
    (hm : Emits P m) (w : World M) (before : List Call) (sofar : List Call)
    (hw : w.trace = before ++ sofar) :
    ∃ rest : List Call, (m w).state.trace = before ++ (sofar ++ rest) ∧ ∀ c ∈ rest, P c := by
  obtain ⟨l, hl, pl⟩ := hm.run w
  exact ⟨l, by simp [hl, hw], pl⟩

/-- The calls of `handleTopDragStart`: an `endDrag` exactly when the monitor reports
a drag in progress, the `beginDrag` with the accumulated ids, and then calls none of which
is `endDrag`. -/
theorem handleTopDragStart_calls (host : Host) (mgr : Manager M)
    (e : DragEvent) (w : World M) :
    ∃ rest : List Call,
      (handleTopDragStart host mgr e w).state.trace =
        w.trace ++ ((if mgr.isDragging w.session then [Call.endDrag] else []) ++
          [Call.beginDrag w.backend.dragStartSourceIds
            (some { publishSource := false, clientOffset := host.getEventClientOffset e })] ++
          rest) ∧
      ∀ c ∈ rest, c ≠ Call.endDrag := by
  unfold handleTopDragStart
  simp only [run_bind, getBackend, setBackend, query]
  cases hd : mgr.isDragging w.session
  all_goals
    simp only [Bool.false_eq_true, if_true, if_false, actionsEndDrag, actionsBeginDrag, act,
      run_bind, run_pure]
    refine exists_rest_of_emits ?_ _ _ _ (by simp)
    repeat' first
      | exact emits_pure _
      | exact emits_getBackend
      | exact emits_getPage
      | exact emits_query _
      | exact emits_setBackend _
      | exact emits_setTimeoutPublishDragSource
      | exact emits_getCurrentSourcePreviewNodeOptions _
      | exact emits_setCurrentDragSourceNode _ _
      | exact emits_beginDragNativeItem _ _ _ (by simp) (by simp)
      | exact emits_record _ (by simp)
      | exact emits_setData _ (by simp)
      | exact emits_act _ _ (by simp)
      | apply emits_tryCatch
      | apply emits_bind
      | apply emits_ite
      | intro _
      | split

/-- C1. Whatever the state and the event, `handleTopDragStart` first calls
`actions.endDrag` exactly when the monitor reports a drag in progress, then
calls `actions.beginDrag` with the accumulated source ids, and calls
`actions.endDrag` nowhere else: with a drag in progress `endDrag` is called
exactly once and before the first `beginDrag`, without one `beginDrag` has no
preceding `endDrag`. -/
theorem handleTopDragStart_endDrag_precedes_beginDrag (host : Host) (mgr : Manager M)
    (e : DragEvent) (w : World M) :
    ∃ rest : List Call,
      (handleTopDragStart host mgr e w).state.trace =
        w.trace ++ ((if mgr.isDragging w.session then [Call.endDrag] else []) ++
          [Call.beginDrag w.backend.dragStartSourceIds
            (some { publishSource := false, clientOffset := host.getEventClientOffset e })] ++
          rest) ∧
      ∀ c ∈ rest, c ≠ Call.endDrag :=
  handleTopDragStart_calls host mgr e w

theorem mem_foldl_addListener (new : List Listener) (ls : List Listener) (l : Listener)
    (h : l ∈ new ∨ l ∈ ls) : l ∈ new.foldl addListener ls := by
  induction new generalizing ls with
  | nil => simpa using h
  | cons a rest ih =>
    simp only [List.foldl_cons]
    apply ih
    rcases h with h | h
    · rcases List.mem_cons.mp h with h | h
      · right
        subst h
        unfold addListener
        split
        · assumption
        · simp
      · exact Or.inl h
    · right
      unfold addListener
      split
      · exact h
      · simp [h]

/-- What the class-level flag does guarantee.  Once an instance has completed
`setup()`, and for as long as the flag `isSetUp` stands as that call left it,
`setup()` on an instance against the same window throws the error 'Cannot have
two HTML5 backends at the same time.' and leaves the registered listeners as
they were; `teardown()` of the first instance returns normally, and `setup()`
on another instance then returns normally and registers that instance's ten
listeners.  The flag standing is more than the first instance not having been
torn down: the `teardown()` of any instance that has stored a window service
clears it. -/
theorem setup_second_instance_throws (first second : World M)
    (hsetup : (setup first).thrown = none)
    (hflag : second.page.isSetUp = (setup first).state.page.isSetUp)
    (hwindow : second.page.window = first.page.window) :
    (setup second).thrown = some JsError.doubleSetup ∧
    (setup second).state.page.listeners = second.page.listeners ∧
    ∀ (later : World M) (other : Backend),
      later.backend.windowService = (setup first).state.backend.windowService →
      later.page.window = first.page.window →
      (teardown later).thrown = none ∧
      (setup { (teardown later).state with backend := other }).thrown = none ∧
      ∀ target, (setup { (teardown later).state with backend := other }).state.backend.windowService
          = some target →
        ∀ l ∈ topListeners target other.self,
          l ∈ (setup { (teardown later).state with backend := other }).state.page.listeners := by
  cases hw : first.page.window with
  | none => simp [setup, getPage, throwJs, hw] at hsetup
  | some win =>
    cases hs : first.page.isSetUp with
    | true => simp [setup, getPage, setBackend, throwJs, hw, hs] at hsetup
    | false =>
      have hflag2 : second.page.isSetUp = true := by
        rw [hflag]
        simp [setup, getPage, setBackend, setPage, addEventListeners, hw, hs]
      have hws : (setup first).state.backend.windowService =
          some (match first.page.customWindow with | some custom => custom | none => win) := by
        simp [setup, getPage, setBackend, setPage, addEventListeners, hw, hs]
      refine ⟨?_, ?_, ?_⟩
      · simp [setup, getPage, setBackend, throwJs, hwindow, hw, hflag2]
      · simp [setup, getPage, setBackend, throwJs, hwindow, hw, hflag2]
      · intro later other hlater hlwin
        rw [hws] at hlater
        have htd : (teardown later).thrown = none ∧
            (teardown later).state.page.isSetUp = false ∧
            (teardown later).state.page.window = some win ∧
            (teardown later).state.page.customWindow = later.page.customWindow := by
          cases hn : later.backend.currentDragSourceNode <;>
            cases hf : later.backend.asyncEndDragFrameId <;>
              simp [teardown, getBackend, setPage, removeEventListeners,
                clearCurrentDragSourceNode, setBackend, windowRemoveEventListener,
                windowCancelAnimationFrame, hlater, hn, hf, hlwin, hw]
          all_goals split <;> simp [windowCancelAnimationFrame, hlater, hlwin, hw]
        obtain ⟨h1, h2, h3, h4⟩ := htd
        refine ⟨h1, ?_, ?_⟩
        · simp [setup, getPage, setBackend, setPage, addEventListeners, h2, h3]
        · intro target htarget l hl
          simp only [setup, getPage, setBackend, setPage, addEventListeners, h2, h3, run_bind,
            Bool.false_eq_true, if_false, state_ok] at htarget ⊢
          simp only [Option.some.injEq] at htarget
          rw [htarget]
          exact mem_foldl_addListener _ _ _ (Or.inl hl)

/-- A run of the flag guarantee: the sample instance sets up, a second
instance fails with the double-setup error, and after the first tears down
the second sets up. -/
theorem setup_second_instance_throws_witness :
    (setup sampleWorld).thrown = none ∧
    (setup { (setup sampleWorld).state with backend := Backend.new 1 }).thrown =
      some JsError.doubleSetup ∧
    (setup { (teardown (setup sampleWorld).state).state with backend := Backend.new 1 }).thrown =
      none :=
  ⟨by decide,
   (setup_second_instance_throws sampleWorld
      { (setup sampleWorld).state with backend := Backend.new 1 } (by decide) rfl rfl).1,
   ((setup_second_instance_throws sampleWorld
      { (setup sampleWorld).state with backend := Backend.new 1 } (by decide) rfl rfl).2.2
      (setup sampleWorld).state (Backend.new 1) rfl rfl).2.1⟩


/-- C2 (evidence of the defect). Three instances on the sample page.  The
first completes `setup()` and is never torn down.  `setup()` of the second
throws the double-setup error after it has stored its window service, so
`teardown()` of the second clears the class-level flag while the first is
still installed.  `setup()` of the third instance, against the same window,
then throws nothing and registers its ten listeners next to the ten of the
first. -/
theorem second_setup_succeeds_while_first_installed :
    (Installation.call (LifecycleCall.setup 0) sampleThreeInstances).1 = none ∧
    (Installation.call (LifecycleCall.setup 1)
      (Installation.calls [LifecycleCall.setup 0] sampleThreeInstances)).1 =
        some JsError.doubleSetup ∧
    installedInstances
      (Installation.calls [LifecycleCall.setup 0, LifecycleCall.setup 1,
        LifecycleCall.teardown 1] sampleThreeInstances).page 0 [0, 1, 2] = [0] ∧
    (Installation.call (LifecycleCall.setup 2)
      (Installation.calls [LifecycleCall.setup 0, LifecycleCall.setup 1,
        LifecycleCall.teardown 1] sampleThreeInstances)).1 = none ∧
    installedInstances
      (Installation.call (LifecycleCall.setup 2)
        (Installation.calls [LifecycleCall.setup 0, LifecycleCall.setup 1,
          LifecycleCall.teardown 1] sampleThreeInstances)).2.page 0 [0, 1, 2] = [0, 2] ∧
    (Installation.call (LifecycleCall.setup 2)
      (Installation.calls [LifecycleCall.setup 0, LifecycleCall.setup 1,
        LifecycleCall.teardown 1] sampleThreeInstances)).2.page.listeners.length = 20 := by
  decide

/-- C3 (evidence of the defect). On the sample page with two instances: the
first sets up; `setup()` of the second throws the double-setup error, but it
has already stored its window service, so its `teardown()` clears the
class-level flag; a further `setup()` of the second then succeeds, and both
instances have their top-level drag listeners installed on the same window. -/
theorem two_instances_installed_after_failed_setup :
    (Installation.call (LifecycleCall.setup 1)
      (Installation.calls [LifecycleCall.setup 0] sampleInstallation)).1 =
        some JsError.doubleSetup ∧
    (Installation.calls [LifecycleCall.setup 0, LifecycleCall.setup 1,
      LifecycleCall.teardown 1] sampleInstallation).page.isSetUp = false ∧
    installedInstances
      (Installation.calls [LifecycleCall.setup 0, LifecycleCall.setup 1,
        LifecycleCall.teardown 1, LifecycleCall.setup 1] sampleInstallation).page 0 [0, 1] =
      [0, 1] := by
  decide

/-- C4. When `matchNativeItemType` throws on the event's payload,
`handleTopDragStart` returns normally; the only calls it makes are the
optional `endDrag` and the `beginDrag` with the accumulated ids, so it calls
neither `preventDefault` nor `registry.addSource`; apart from resetting
`dragStartSourceIds` it leaves every field (the tracked drag source node and
the native source among them) and the page (its listeners among them) as they
were. -/
theorem handleTopDragStart_unreadable_payload (host : Host) (mgr : Manager M) (e : DragEvent)
    (w : World M) (err : JsError)
    (hunreadable : host.matchNativeItemType e.dataTransfer = Except.error err) :
    (handleTopDragStart host mgr e w).thrown = none ∧
    (handleTopDragStart host mgr e w).state.trace =
      w.trace ++ ((if mgr.isDragging w.session then [Call.endDrag] else []) ++
        [Call.beginDrag w.backend.dragStartSourceIds
          (some { publishSource := false, clientOffset := host.getEventClientOffset e })]) ∧
    Call.preventDefault ∉ callsSince w (handleTopDragStart host mgr e w).state ∧
    (∀ t, Call.addSource t ∉ callsSince w (handleTopDragStart host mgr e w).state) ∧
    (handleTopDragStart host mgr e w).state.backend =
      { w.backend with dragStartSourceIds := none } ∧
    (handleTopDragStart host mgr e w).state.page = w.page := by
  cases hd : mgr.isDragging w.session <;>
    simp [handleTopDragStart, getBackend, setBackend, query, actionsEndDrag, actionsBeginDrag,
      act, hd, hunreadable, callsSince]

/-- A run of C4: the sample host cannot read a payload that lists
`unreadable`. -/
theorem handleTopDragStart_unreadable_payload_witness :
    (sampleHost false).matchNativeItemType (sampleEvent (some ["unreadable"])).dataTransfer =
      Except.error JsError.unreadable ∧
    (handleTopDragStart (sampleHost false) sampleManager (sampleEvent (some ["unreadable"]))
      sampleWorld).thrown = none :=
  ⟨rfl,
   (handleTopDragStart_unreadable_payload (sampleHost false) sampleManager
      (sampleEvent (some ["unreadable"])) sampleWorld JsError.unreadable rfl).1⟩


@[simp] theorem deliver_nil (w : World M) : deliver [] w = w := rfl

@[simp] theorem deliver_cons (l : JsM (World M) Unit) (ls : List (JsM (World M) Unit))
    (w : World M) : deliver (l :: ls) w = deliver ls (l w).state := rfl

@[simp] theorem deliver_append (l1 l2 : List (JsM (World M) Unit)) (w : World M) :
    deliver (l1 ++ l2) w = deliver l2 (deliver l1 w) := by
  simp [deliver]

theorem deliver_handleDragStart (ids : List Ident) (w : World M) (l : List Ident)
    (h : w.backend.dragStartSourceIds = some l) :
    deliver (ids.map handleDragStart) w =
      { w with backend := { w.backend with dragStartSourceIds := some (ids.reverse ++ l) } } := by
  induction ids generalizing w l with
  | nil => simp [← h]
  | cons i rest ih =>
    simp only [List.map_cons, deliver_cons]
    rw [ih (handleDragStart i w).state (i :: l)]
    · simp [handleDragStart, getBackend, setBackend, unshift, h]
    · simp [handleDragStart, getBackend, setBackend, unshift, h]

theorem deliver_handleDragEnter (ids : List Ident) (w : World M) (l : List Ident)
    (h : w.backend.dragEnterTargetIds = some l) :
    deliver (ids.map handleDragEnter) w =
      { w with backend := { w.backend with dragEnterTargetIds := some (ids.reverse ++ l) } } := by
  induction ids generalizing w l with
  | nil => simp [← h]
  | cons i rest ih =>
    simp only [List.map_cons, deliver_cons]
    rw [ih (handleDragEnter i w).state (i :: l)]
    · simp [handleDragEnter, getBackend, setBackend, unshift, h]
    · simp [handleDragEnter, getBackend, setBackend, unshift, h]

theorem deliver_handleDragOver (ids : List Ident) (w : World M) (l : List Ident)
    (h : w.backend.dragOverTargetIds = some l) :
    deliver (ids.map handleDragOver) w =
      { w with backend := { w.backend with dragOverTargetIds := some (ids.reverse ++ l) } } := by
  induction ids generalizing w l with
  | nil => simp [← h]
  | cons i rest ih =>
    simp only [List.map_cons, deliver_cons]
    rw [ih (handleDragOver i w).state (i :: l)]
    · simp [handleDragOver, getBackend, setBackend, unshift, h]
    · simp [handleDragOver, getBackend, setBackend, unshift, h]

theorem deliver_handleDrop (ids : List Ident) (w : World M) (l : List Ident)
    (h : w.backend.dropTargetIds = some l) :
    deliver (ids.map handleDrop) w =
      { w with backend := { w.backend with dropTargetIds := some (ids.reverse ++ l) } } := by
  induction ids generalizing w l with
  | nil => simp [← h]
  | cons i rest ih =>
    simp only [List.map_cons, deliver_cons]
    rw [ih (handleDrop i w).state (i :: l)]
    · simp [handleDrop, getBackend, setBackend, unshift, h]
    · simp [handleDrop, getBackend, setBackend, unshift, h]

theorem emits_isDraggingNativeItem {P : Call → Prop} (mgr : Manager M) :
    Emits P (isDraggingNativeItem mgr) := by
  unfold isDraggingNativeItem
  exact emits_bind (emits_query _) (fun _ => emits_pure _)

theorem emits_endDragNativeItem {P : Call → Prop} (mgr : Manager M) (hend : P Call.endDrag)
    (hremove : ∀ h, P (Call.removeSource h)) : Emits P (endDragNativeItem mgr) := by
  unfold endDragNativeItem
  refine emits_bind (emits_isDraggingNativeItem mgr) (fun _ => emits_ite _ (emits_pure _) ?_)
  exact emits_bind (emits_act _ _ hend) (fun _ => emits_bind emits_getBackend (fun _ =>
    emits_bind (emits_act _ _ (hremove _)) (fun _ => emits_setBackend _)))

theorem emits_endDragIfSourceWasRemovedFromDOM {P : Call → Prop} (mgr : Manager M)
    (hend : P Call.endDrag) : Emits P (endDragIfSourceWasRemovedFromDOM mgr) := by
  unfold endDragIfSourceWasRemovedFromDOM
  refine emits_bind emits_getBackend (fun _ => emits_bind emits_getPage (fun _ =>
    emits_ite _ (emits_pure _) ?_))
  exact emits_bind emits_clearCurrentDragSourceNode (fun _ =>
    emits_ite _ (emits_act _ _ hend) (emits_pure _))

theorem exists_rest_of_appends {α : Type} {m : JsM (World M) α}
    (hm : Emits (fun _ => True) m) (w : World M) (before : List Call) (sofar : List Call)
    (hw : w.trace = before ++ sofar) :
    ∃ rest : List Call, (m w).state.trace = before ++ (sofar ++ rest) := by
  obtain ⟨l, hl, _⟩ := hm.run w
  exact ⟨l, by simp [hl, hw]⟩

/-- C5. A drop event delivered while the monitor's item type is native and a
native source is current: the capture handler calls `preventDefault` and then
the native source's `mutateItemByReadingDataTransfer` with the event's
`dataTransfer`; every other call of the event comes after it, namely (when the
monitor reports dragging) `hover` with the accumulated ids, `drop`, and
whatever ending the drag calls.  So the payload is read before `actions.drop`
and before `actions.endDrag`. -/
theorem drop_reads_payload_before_drop (host : Host) (mgr : Manager M) (e : DragEvent)
    (targetIds : List Ident) (w : World M) (source : NativeSource)
    (hnative : NativeTypes.any (fun t => some t == mgr.getItemType w.session) = true)
    (hsource : w.backend.currentNativeSource = some source) :
    (mgr.isDragging w.session = false →
      (deliver (dropEvent host mgr e targetIds) w).trace =
        w.trace ++ [Call.preventDefault,
          Call.mutateItemByReadingDataTransfer e.dataTransfer]) ∧
    (mgr.isDragging w.session = true →
      ∃ tail : List Call,
        (deliver (dropEvent host mgr e targetIds) w).trace =
          w.trace ++ ([Call.preventDefault,
            Call.mutateItemByReadingDataTransfer e.dataTransfer,
            Call.hover (some targetIds.reverse) (host.getEventClientOffset e),
            Call.drop] ++ tail)) := by
  have hcap : (handleTopDropCapture mgr e w).state =
      { w with
        backend := { w.backend with
          dropTargetIds := some [],
          currentNativeSource := some { source with item := some e.dataTransfer },
          enterLeaveCounter := w.backend.enterLeaveCounter.reset },
        trace := w.trace ++ [Call.preventDefault,
          Call.mutateItemByReadingDataTransfer e.dataTransfer] } := by
    simp [handleTopDropCapture, setBackend, preventDefault, record, isDraggingNativeItem, query,
      getBackend, hnative, hsource]
  simp only [dropEvent, deliver_append, deliver_cons, deliver_nil, hcap]
  rw [deliver_handleDrop targetIds _ [] rfl]
  unfold handleTopDrop
  simp only [run_bind, getBackend, setBackend, query, List.append_nil]
  constructor
  · intro hd
    simp [hd]
  · intro hd
    simp only [hd, Bool.not_true, Bool.false_eq_true, if_false, actionsHover, actionsDrop,
      act, run_bind, isDraggingNativeItem, query, run_pure]
    split
    · exact exists_rest_of_appends
        (emits_endDragNativeItem (P := fun _ => True) mgr trivial (fun _ => trivial))
        _ _ _ (by simp)
    · exact exists_rest_of_appends
        (emits_endDragIfSourceWasRemovedFromDOM (P := fun _ => True) mgr trivial)
        _ _ _ (by simp)

/-- A run of C5: on the sample page a file is dragged in (a native drag
begins on `dragenter`), then dropped on target 5. -/
theorem drop_reads_payload_before_drop_witness :
    NativeTypes.any (fun t => some t == sampleManager.getItemType sampleNativeDrag.session) = true ∧
    sampleNativeDrag.backend.currentNativeSource = some { type := ItemType.FILE, item := none } ∧
    sampleManager.isDragging sampleNativeDrag.session = true ∧
    ∃ tail : List Call,
      (deliver (dropEvent (sampleHost false) sampleManager (sampleEvent (some ["Files"])) [5])
        sampleNativeDrag).trace =
        sampleNativeDrag.trace ++ ([Call.preventDefault,
          Call.mutateItemByReadingDataTransfer (sampleEvent (some ["Files"])).dataTransfer,
          Call.hover (some [5].reverse)
            ((sampleHost false).getEventClientOffset (sampleEvent (some ["Files"]))),
          Call.drop] ++ tail) :=
  ⟨by decide, by decide, by decide,
   (drop_reads_payload_before_drop (sampleHost false) sampleManager
      (sampleEvent (some ["Files"])) [5] sampleNativeDrag { type := ItemType.FILE, item := none }
      (by decide) (by decide)).2 (by decide)⟩


/-- C6. On an instance that has been set up, `handleTopDragEndCapture`
returns normally, leaves no drag source node tracked and calls `endDrag`
exactly when a node was tracked (and makes no other call); running it again
right after returns normally with the state unchanged, so it calls nothing.
Two runs in succession therefore call `endDrag` at most once. -/
theorem handleTopDragEndCapture_twice (mgr : Manager M) (w : World M) (ws : Nat)
    (hws : w.backend.windowService = some ws) :
    (handleTopDragEndCapture mgr w).thrown = none ∧
    (handleTopDragEndCapture mgr w).state.backend.currentDragSourceNode = none ∧
    (handleTopDragEndCapture mgr w).state.trace =
      w.trace ++ (if w.backend.currentDragSourceNode.isSome then [Call.endDrag] else []) ∧
    handleTopDragEndCapture mgr (handleTopDragEndCapture mgr w).state =
      Res.ok () (handleTopDragEndCapture mgr w).state := by
  cases hn : w.backend.currentDragSourceNode <;>
    simp [handleTopDragEndCapture, clearCurrentDragSourceNode, getBackend, setBackend,
      windowRemoveEventListener, actionsEndDrag, act, hn, hws]

/-- A run of C6: the sample world while source 1 is dragged (node 1 is
tracked); the first `dragend` calls `endDrag`, the second calls nothing. -/
theorem handleTopDragEndCapture_twice_witness :
    sampleSourceDrag.backend.windowService = some 0 ∧
    sampleSourceDrag.backend.currentDragSourceNode = some 1 ∧
    (handleTopDragEndCapture sampleManager sampleSourceDrag).state.trace =
      sampleSourceDrag.trace ++
        (if sampleSourceDrag.backend.currentDragSourceNode.isSome then [Call.endDrag] else []) ∧
    handleTopDragEndCapture sampleManager
        (handleTopDragEndCapture sampleManager sampleSourceDrag).state =
      Res.ok () (handleTopDragEndCapture sampleManager sampleSourceDrag).state :=
  ⟨by decide, by decide,
   (handleTopDragEndCapture_twice sampleManager sampleSourceDrag 0 (by decide)).2.2.1,
   (handleTopDragEndCapture_twice sampleManager sampleSourceDrag 0 (by decide)).2.2.2⟩

/-- C7. On an instance that has been set up and tracks a drag source node:
if `document.body` no longer contains the node, `endDragIfSourceWasRemovedFromDOM`
returns normally, clears the tracked node and calls `endDrag` once (and
nothing else), and a second call right after returns normally with the state
unchanged, so it calls `endDrag` zero times; if `document.body` still contains
the node, the call returns normally with the state unchanged. -/
theorem endDragIfSourceWasRemovedFromDOM_once (mgr : Manager M) (w : World M) (ws : Nat)
    (node : Node) (hws : w.backend.windowService = some ws)
    (hnode : w.backend.currentDragSourceNode = some node) :
    (node ∉ w.page.dom.body →
      (endDragIfSourceWasRemovedFromDOM mgr w).thrown = none ∧
      (endDragIfSourceWasRemovedFromDOM mgr w).state.backend.currentDragSourceNode = none ∧
      (endDragIfSourceWasRemovedFromDOM mgr w).state.trace = w.trace ++ [Call.endDrag] ∧
      endDragIfSourceWasRemovedFromDOM mgr (endDragIfSourceWasRemovedFromDOM mgr w).state =
        Res.ok () (endDragIfSourceWasRemovedFromDOM mgr w).state) ∧
    (node ∈ w.page.dom.body → endDragIfSourceWasRemovedFromDOM mgr w = Res.ok () w) := by
  constructor
  · intro hout
    simp [endDragIfSourceWasRemovedFromDOM, documentBodyContains, clearCurrentDragSourceNode,
      getBackend, getPage, setBackend, windowRemoveEventListener, actionsEndDrag, act, hnode,
      hws, hout]
  · intro hin
    simp [endDragIfSourceWasRemovedFromDOM, documentBodyContains, getBackend, getPage, hnode,
      hin]

/-- A run of C7: source 1 is dragged and its node 1 is then removed from
the document; the first `mousemove` ends the drag, the second does nothing. -/
theorem endDragIfSourceWasRemovedFromDOM_once_witness :
    sampleSourceRemoved.backend.windowService = some 0 ∧
    sampleSourceRemoved.backend.currentDragSourceNode = some 1 ∧
    1 ∉ sampleSourceRemoved.page.dom.body ∧
    (endDragIfSourceWasRemovedFromDOM sampleManager sampleSourceRemoved).state.trace =
      sampleSourceRemoved.trace ++ [Call.endDrag] ∧
    endDragIfSourceWasRemovedFromDOM sampleManager
        (endDragIfSourceWasRemovedFromDOM sampleManager sampleSourceRemoved).state =
      Res.ok () (endDragIfSourceWasRemovedFromDOM sampleManager sampleSourceRemoved).state :=
  ⟨by decide, by decide, by decide,
   ((endDragIfSourceWasRemovedFromDOM_once sampleManager sampleSourceRemoved 0 1 (by decide)
      (by decide)).1 (by decide)).2.2.1,
   ((endDragIfSourceWasRemovedFromDOM_once sampleManager sampleSourceRemoved 0 1 (by decide)
      (by decide)).1 (by decide)).2.2.2⟩


/-- C8 (evidence of the defect). On a host where `isFirefox()` is true: the
sample instance sets up, a file dragged in from outside begins a native drag
(`beginDragNativeItem` registers the `mouseover` listener
`asyncEndDragNativeItem`), and `teardown()` runs.  The `mouseover` listener is
still registered on the window afterwards, and when it fires it schedules an
animation frame callback for the torn-down instance.  The same listener is
left when the native drag was begun by `handleTopDragStart`. -/
theorem teardown_leaves_mouseover_listener :
    (setup sampleWorld).thrown = none ∧
    (teardown sampleFirefoxNativeDrag).thrown = none ∧
    (teardown sampleFirefoxNativeDrag).state.page.listeners =
      [{ target := 0, type := EventType.mouseover, owner := 0,
         handler := Handler.asyncEndDragNativeItem, capture := true }] ∧
    (asyncEndDragNativeItem (sampleHost true)
      (teardown sampleFirefoxNativeDrag).state).state.page.frames =
      [{ id := 1, owner := 0, handler := Handler.endDragNativeItem }] ∧
    (teardown sampleFirefoxNativeDragStart).state.page.listeners =
      [{ target := 0, type := EventType.mouseover, owner := 0,
         handler := Handler.asyncEndDragNativeItem, capture := true }] := by
  decide

theorem emits_someCanDrop {P : Call → Prop} (mgr : Manager M) (ids : Option (List Ident)) :
    Emits P (someCanDrop mgr ids) := by
  unfold someCanDrop
  split
  · exact emits_throwJs _
  · exact emits_bind (emits_query _) (fun _ => emits_pure _)

theorem emits_getCurrentSourceNodeOptions {P : Call → Prop} (mgr : Manager M) :
    Emits P (getCurrentSourceNodeOptions mgr) := by
  unfold getCurrentSourceNodeOptions
  refine emits_bind (emits_query _) (fun sourceId => emits_bind emits_getBackend (fun b => ?_))
  split
  · exact emits_bind (emits_setBackend _) (fun _ => emits_pure _)
  · exact emits_pure _

theorem emits_getCurrentDropEffect {P : Call → Prop} (mgr : Manager M) :
    Emits P (getCurrentDropEffect mgr) := by
  unfold getCurrentDropEffect
  refine emits_bind (emits_isDraggingNativeItem mgr) (fun _ => emits_ite _ (emits_pure _) ?_)
  exact emits_bind (emits_getCurrentSourceNodeOptions mgr) (fun _ => emits_pure _)

theorem emits_setDropEffect {P : Call → Prop} (value : Option DropEffect)
    (h : ∀ v, P (Call.setDropEffect v)) : Emits P (setDropEffect value : JsM (World M) Unit) := by
  unfold setDropEffect
  split
  · exact emits_record _ (h _)
  · exact emits_pure _

theorem emits_preventDefault {P : Call → Prop} (h : P Call.preventDefault) :
    Emits P (preventDefault : JsM (World M) Unit) :=
  emits_record _ h

theorem emits_checkIfCurrentDragSourceRectChanged {P : Call → Prop} (host : Host) :
    Emits P (checkIfCurrentDragSourceRectChanged host : JsM (World M) Bool) := by
  unfold checkIfCurrentDragSourceRectChanged
  refine emits_bind emits_getBackend (fun b => ?_)
  split
  · exact emits_pure _
  · refine emits_ite _ (emits_pure _) ?_
    exact emits_bind emits_getPage (fun _ => emits_bind (emits_setBackend _) (fun _ =>
      emits_pure _))


/-- C9 as stated fails for `dragenter` on a host where `isFirefox()` is
true: source 1 is dragged, the per-node handler is invoked with target ids 5
and then 6, and the bubble handler makes no `hover` call at all, so the list
`[6, 5]` is not passed to the dispatcher. -/
theorem dragenter_on_firefox_dispatches_no_hover :
    sampleManager.isDragging sampleFirefoxSourceDrag.session = true ∧
    callsSince sampleFirefoxSourceDrag
      (deliver (dragEnterEvent (sampleHost true) sampleManager (sampleEvent none) [5, 6])
        sampleFirefoxSourceDrag) =
      [Call.preventDefault, Call.setDropEffect DropEffect.move] ∧
    Call.hover (some [6, 5]) { x := 10, y := 20 } ∉
      callsSince sampleFirefoxSourceDrag
        (deliver (dragEnterEvent (sampleHost true) sampleManager (sampleEvent none) [5, 6])
          sampleFirefoxSourceDrag) := by
  decide

/-- C9 as amended. Start from a state in which the capture handler has reset
the accumulator to the empty list, and invoke the per-node handler with the
ids `ids` in that order.  Then: `handleTopDragStart` passes `ids.reverse` to its
first `beginDrag` call (preceded only by the optional `endDrag`);
`handleTopDragEnter` calls `hover` exactly when the monitor reports dragging and
`isFirefox()` is false, `handleTopDragOver` and `handleTopDrop` exactly when the
monitor reports dragging; such a `hover` call is the handler's first call, it
receives `ids.reverse`, and no other `hover` call follows. -/
theorem accumulated_ids_reach_dispatcher (host : Host) (mgr : Manager M) (e : DragEvent)
    (ids : List Ident) (w : World M) :
    (w.backend.dragStartSourceIds = some [] →
      ∃ rest : List Call,
        (handleTopDragStart host mgr e (deliver (ids.map handleDragStart) w)).state.trace =
          w.trace ++ ((if mgr.isDragging w.session then [Call.endDrag] else []) ++
            [Call.beginDrag (some ids.reverse)
              (some { publishSource := false, clientOffset := host.getEventClientOffset e })] ++
            rest)) ∧
    (w.backend.dragEnterTargetIds = some [] →
      ∃ rest : List Call,
        (handleTopDragEnter host mgr e (deliver (ids.map handleDragEnter) w)).state.trace =
          w.trace ++ ((if mgr.isDragging w.session && !host.isFirefox then
              [Call.hover (some ids.reverse) (host.getEventClientOffset e)] else []) ++ rest) ∧
        ∀ c ∈ rest, c.isHover = false) ∧
    (w.backend.dragOverTargetIds = some [] →
      ∃ rest : List Call,
        (handleTopDragOver host mgr e (deliver (ids.map handleDragOver) w)).state.trace =
          w.trace ++ ((if mgr.isDragging w.session then
              [Call.hover (some ids.reverse) (host.getEventClientOffset e)] else []) ++ rest) ∧
        ∀ c ∈ rest, c.isHover = false) ∧
    (w.backend.dropTargetIds = some [] →
      ∃ rest : List Call,
        (handleTopDrop host mgr e (deliver (ids.map handleDrop) w)).state.trace =
          w.trace ++ ((if mgr.isDragging w.session then
              [Call.hover (some ids.reverse) (host.getEventClientOffset e)] else []) ++ rest) ∧
        ∀ c ∈ rest, c.isHover = false) := by
  refine ⟨?_, ?_, ?_, ?_⟩
  · intro h
    obtain ⟨rest, hrest, _⟩ :=
      handleTopDragStart_calls host mgr e (deliver (ids.map handleDragStart) w)
    refine ⟨rest, ?_⟩
    rw [hrest, deliver_handleDragStart ids w [] h]
    simp
  · intro h
    rw [deliver_handleDragEnter ids w [] h]
    unfold handleTopDragEnter
    simp only [run_bind, getBackend, setBackend, query, List.append_nil]
    cases hd : mgr.isDragging w.session <;> cases hf : host.isFirefox
    all_goals
      simp only [Bool.not_true, Bool.not_false, Bool.false_eq_true, Bool.and_true,
        Bool.and_false, Bool.false_and, Bool.true_and, if_false, if_true, actionsHover, act,
        run_bind, run_pure]
    · exact ⟨[], by simp, by simp⟩
    · exact ⟨[], by simp, by simp⟩
    all_goals
      try simp only [← run_bind]
      refine exists_rest_of_emits ?_ _ _ _ (by simp)
      repeat' first
        | exact emits_pure _
        | exact emits_someCanDrop _ _
        | exact emits_getCurrentDropEffect _
        | exact emits_preventDefault (by simp [Call.isHover])
        | exact emits_setDropEffect _ (by simp [Call.isHover])
        | apply emits_bind
        | apply emits_ite
        | intro _
  · intro h
    rw [deliver_handleDragOver ids w [] h]
    unfold handleTopDragOver
    simp only [run_bind, getBackend, setBackend, query, List.append_nil]
    cases hd : mgr.isDragging w.session
    all_goals
      simp only [Bool.not_true, Bool.not_false, Bool.false_eq_true, if_false, if_true,
        actionsHover, act, run_bind, run_pure]
    all_goals
      try simp only [← run_bind]
      refine exists_rest_of_emits ?_ _ _ _ (by simp)
      repeat' first
        | exact emits_pure _
        | exact emits_someCanDrop _ _
        | exact emits_getCurrentDropEffect _
        | exact emits_isDraggingNativeItem _
        | exact emits_checkIfCurrentDragSourceRectChanged _
        | exact emits_preventDefault (by simp [Call.isHover])
        | exact emits_setDropEffect _ (by simp [Call.isHover])
        | apply emits_bind
        | apply emits_ite
        | intro _
  · intro h
    rw [deliver_handleDrop ids w [] h]
    unfold handleTopDrop
    simp only [run_bind, getBackend, setBackend, query, List.append_nil]
    cases hd : mgr.isDragging w.session
    all_goals
      simp only [Bool.not_true, Bool.not_false, Bool.false_eq_true, if_false, if_true,
        actionsHover, act, run_bind, run_pure]
    · exact ⟨[], by simp, by simp⟩
    · simp only [← run_bind]
      refine exists_rest_of_emits ?_ _ _ _ (by simp)
      repeat' first
        | exact emits_pure _
        | exact emits_isDraggingNativeItem _
        | exact emits_endDragNativeItem _ (by simp [Call.isHover]) (by simp [Call.isHover])
        | exact emits_endDragIfSourceWasRemovedFromDOM _ (by simp [Call.isHover])
        | exact emits_act _ _ (by simp [Call.isHover])
        | apply emits_bind
        | apply emits_ite
        | intro _


/-- A run of C9 as amended: source 1 is dragged on the sample page, a
`dragover` reaches targets 5 and then 6, and `hover` receives `[6, 5]`. -/
theorem accumulated_ids_reach_dispatcher_witness :
    (handleTopDragOverCapture sampleSourceDrag).state.backend.dragOverTargetIds = some [] ∧
    ∃ rest : List Call,
      (handleTopDragOver (sampleHost false) sampleManager (sampleEvent none)
        (deliver ([5, 6].map handleDragOver)
          (handleTopDragOverCapture sampleSourceDrag).state)).state.trace =
        (handleTopDragOverCapture sampleSourceDrag).state.trace ++
          ((if sampleManager.isDragging (handleTopDragOverCapture sampleSourceDrag).state.session
            then [Call.hover (some [5, 6].reverse)
              ((sampleHost false).getEventClientOffset (sampleEvent none))] else []) ++ rest) ∧
      ∀ c ∈ rest, c.isHover = false :=
  ⟨by decide,
   (accumulated_ids_reach_dispatcher (sampleHost false) sampleManager (sampleEvent none) [5, 6]
      (handleTopDragOverCapture sampleSourceDrag).state).2.2.1 (by decide)⟩

/-- C10 as stated fails: source 1 is registered with node 1, no preview
node and no preview options are registered for it, and the session accepts it;
the `dragstart` calls `beginDrag` with `[1]` and then does call
`dataTransfer.setDragImage`, with the source's own node as the image. -/
theorem dragstart_without_preview_sets_drag_image :
    JsObj.get sampleSourceDrag.backend.sourceNodes (some 1) = some 1 ∧
    JsObj.get sampleSourceDrag.backend.sourcePreviewNodes (some 1) = none ∧
    sampleManager.isDragging sampleSourceDrag.session = true ∧
    sampleManager.getSourceId sampleSourceDrag.session = some 1 ∧
    sampleSourceDrag.trace =
      [Call.beginDrag (some [1])
         (some { publishSource := false, clientOffset := { x := 10, y := 20 } }),
       Call.setDragImage 1 10 20,
       Call.setData] := by
  decide

set_option maxHeartbeats 1000000 in
/-- C10 as amended. `handleTopDragStart` on an instance that has been set up,
with accumulated ids `[S1]`, where `S1` is registered with source node `node`,
has no preview node and no preview options registered, and the monitor reports
dragging with source id `S1` after `beginDrag`: the handler returns normally;
it calls `beginDrag` with `[S1]` (after the optional `endDrag`); when the
payload is readable it then calls `setDragImage` with the source's own node as
the image if `dataTransfer.setDragImage` is a function, calls `setData`, and
schedules `publishDragSource` with `setTimeout`; it makes no other call, so
`publishDragSource` is not called inside the handler. -/
theorem handleTopDragStart_registered_source (host : Host) (mgr : Manager M) (e : DragEvent)
    (w : World M) (ws : Nat) (S1 : Ident) (node : Node)
    (hws : w.backend.windowService = some ws)
    (hids : w.backend.dragStartSourceIds = some [S1])
    (hsource : JsObj.get w.backend.sourceNodes (some S1) = some node)
    (hpreview : (JsObj.get w.backend.sourcePreviewNodes (some S1)).join = none)
    (hoptions : (JsObj.get w.backend.sourcePreviewNodeOptions (some S1)).join = none)
    (hdragging : mgr.isDragging (sessionAfterBeginDrag host mgr e w) = true)
    (hsourceId : mgr.getSourceId (sessionAfterBeginDrag host mgr e w) = some S1) :
    (handleTopDragStart host mgr e w).thrown = none ∧
    (handleTopDragStart host mgr e w).state.trace =
      w.trace ++ ((if mgr.isDragging w.session then [Call.endDrag] else []) ++
        [Call.beginDrag (some [S1])
          (some { publishSource := false, clientOffset := host.getEventClientOffset e })] ++
        (if payloadReadable host e then
          (if e.dataTransfer.hasSetDragImage then
            [Call.setDragImage node
              (host.getDragPreviewOffset w.page.dom (some node) node
                (host.getEventClientOffset e) (some (1 / 2), some (1 / 2))).x
              (host.getDragPreviewOffset w.page.dom (some node) node
                (host.getEventClientOffset e) (some (1 / 2), some (1 / 2))).y]
           else []) ++ [Call.setData]
         else [])) ∧
    Call.publishDragSource ∉ callsSince w (handleTopDragStart host mgr e w).state ∧
    (handleTopDragStart host mgr e w).state.page.timeouts =
      w.page.timeouts ++
        (if payloadReadable host e then
          [{ id := w.page.timeouts.length, owner := w.backend.self,
             handler := Handler.publishDragSource }]
         else []) := by
  unfold sessionAfterBeginDrag at hdragging hsourceId
  rw [hids] at hdragging hsourceId
  have hpreview2 :
      ((JsObj.get w.backend.sourcePreviewNodes (some S1)).bind fun a => a) = none := hpreview
  have hoptions2 :
      ((JsObj.get w.backend.sourcePreviewNodeOptions (some S1)).bind fun a => a) = none :=
    hoptions
  cases hd : mgr.isDragging w.session <;>
    cases hm : host.matchNativeItemType e.dataTransfer <;>
      cases hi : e.dataTransfer.hasSetDragImage <;>
        cases ht : e.dataTransfer.setDataThrows <;>
          cases hn : w.backend.currentDragSourceNode <;>
            simp [hd] at hdragging hsourceId <;>
              simp [handleTopDragStart, getBackend, setBackend, query, actionsEndDrag,
                actionsBeginDrag, act, hd, hm, hi, ht, hn, hids,
                hdragging, hsourceId, hsource, hpreview2, hoptions2, hws, payloadReadable,
                callsSince, getCurrentSourcePreviewNodeOptions, getPage, record, tryCatch,
                setData, throwJs, setCurrentDragSourceNode, clearCurrentDragSourceNode,
                windowRemoveEventListener, windowAddEventListener, truthy,
                setTimeoutPublishDragSource]

/-- A run of C10 as amended: the sample instance with source 1 connected
to node 1, at the moment the `dragstart` event reaches the bubble listener. -/
theorem handleTopDragStart_registered_source_witness :
    sampleBeforeBubble.backend.windowService = some 0 ∧
    sampleBeforeBubble.backend.dragStartSourceIds = some [1] ∧
    JsObj.get sampleBeforeBubble.backend.sourceNodes (some 1) = some 1 ∧
    sampleManager.isDragging
      (sessionAfterBeginDrag (sampleHost false) sampleManager (sampleEvent none)
        sampleBeforeBubble) = true ∧
    (handleTopDragStart (sampleHost false) sampleManager (sampleEvent none)
      sampleBeforeBubble).thrown = none ∧
    Call.publishDragSource ∉ callsSince sampleBeforeBubble
      (handleTopDragStart (sampleHost false) sampleManager (sampleEvent none)
        sampleBeforeBubble).state :=
  ⟨by decide, by decide, by decide, by decide,
   (handleTopDragStart_registered_source (sampleHost false) sampleManager (sampleEvent none)
      sampleBeforeBubble 0 1 1 (by decide) (by decide) (by decide) rfl rfl (by decide)
      (by decide)).1,
   (handleTopDragStart_registered_source (sampleHost false) sampleManager (sampleEvent none)
      sampleBeforeBubble 0 1 1 (by decide) (by decide) (by decide) rfl rfl (by decide)
      (by decide)).2.2.1⟩


theorem deliver_dragOverEvent_eq (host : Host) (mgr : Manager M) (e : DragEvent)
    (targetIds : List Ident) (w : World M) :
    deliver (dragOverEvent host mgr e targetIds) w =
      (handleTopDragOver host mgr e
        { w with backend := { w.backend with dragOverTargetIds := some targetIds.reverse } }).state := by
  simp only [dragOverEvent, deliver_append, deliver_cons, deliver_nil]
  rw [deliver_handleDragOver targetIds _ [] (by simp [handleTopDragOverCapture, setBackend])]
  simp [handleTopDragOverCapture, setBackend]

/-- C11. A `dragover` event (capture listener, the connected target nodes
with ids `targetIds`, bubble listener) makes exactly these calls.  No session
active: `preventDefault`, then `dropEffect = 'none'`, and no action.  Session
active: `hover` with the accumulated ids, and then, with the monitor as `hover`
left it, the first case that applies: some accumulated id satisfies
`canDropOnTarget`: `preventDefault` and `dropEffect` set to what
`getCurrentDropEffect()` returns; a native item is dragged: `preventDefault` and
`dropEffect = 'none'`; `checkIfCurrentDragSourceRectChanged()` returns true:
`preventDefault` and `dropEffect = 'move'`; otherwise nothing more. -/
theorem handleTopDragOver_table (host : Host) (mgr : Manager M) (e : DragEvent)
    (targetIds : List Ident) (w : World M) :
    (mgr.isDragging w.session = false →
      (deliver (dragOverEvent host mgr e targetIds) w).trace =
        w.trace ++ [Call.preventDefault, Call.setDropEffect DropEffect.none]) ∧
    (mgr.isDragging w.session = true →
      (targetIds.reverse.any (mgr.canDropOnTarget
          (mgr.hover (some targetIds.reverse) (host.getEventClientOffset e) w.session)) = true →
        ∃ (effect : DropEffect) (w1 : World M),
          getCurrentDropEffect mgr
            { w with session := (mgr.hover (some targetIds.reverse)
                (host.getEventClientOffset e) w.session) } =
            Res.ok (some effect) w1 ∧
          (deliver (dragOverEvent host mgr e targetIds) w).trace =
            w.trace ++ [Call.hover (some targetIds.reverse) (host.getEventClientOffset e),
              Call.preventDefault, Call.setDropEffect effect]) ∧
      (targetIds.reverse.any (mgr.canDropOnTarget
          (mgr.hover (some targetIds.reverse) (host.getEventClientOffset e) w.session)) = false →
        (NativeTypes.any (fun t => some t == mgr.getItemType
            (mgr.hover (some targetIds.reverse) (host.getEventClientOffset e) w.session)) = true →
          (deliver (dragOverEvent host mgr e targetIds) w).trace =
            w.trace ++ [Call.hover (some targetIds.reverse) (host.getEventClientOffset e),
              Call.preventDefault, Call.setDropEffect DropEffect.none]) ∧
        (NativeTypes.any (fun t => some t == mgr.getItemType
            (mgr.hover (some targetIds.reverse) (host.getEventClientOffset e) w.session)) = false →
          ∃ (changed : Bool) (w1 : World M),
            checkIfCurrentDragSourceRectChanged host w = Res.ok changed w1 ∧
            (deliver (dragOverEvent host mgr e targetIds) w).trace =
              w.trace ++ (Call.hover (some targetIds.reverse) (host.getEventClientOffset e) ::
                (if changed then [Call.preventDefault, Call.setDropEffect DropEffect.move]
                 else []))))) := by
  rw [deliver_dragOverEvent_eq]
  unfold handleTopDragOver
  simp only [run_bind, getBackend, setBackend, query]
  refine ⟨?_, ?_⟩
  · intro hd
    simp [hd, preventDefault, setDropEffect, record]
  · intro hd
    simp only [hd, Bool.not_true, Bool.false_eq_true, if_false, actionsHover, act, run_bind,
      someCanDrop, query, run_pure]
    refine ⟨?_, ?_⟩
    · intro hcan
      simp only [hcan, if_true, preventDefault, record, run_bind]
      cases hn : NativeTypes.any (fun t => some t == mgr.getItemType
            (mgr.hover (some targetIds.reverse) (host.getEventClientOffset e) w.session))
      · cases ho : (JsObj.get w.backend.sourceNodeOptions (mgr.getSourceId
            (mgr.hover (some targetIds.reverse) (host.getEventClientOffset e) w.session))) with
        | none =>
          cases hs : mgr.getSourceId
              (mgr.hover (some targetIds.reverse) (host.getEventClientOffset e) w.session) <;>
            simp [hs] at ho <;>
            simp [getCurrentDropEffect, isDraggingNativeItem, query, hn, ho, hs,
              getCurrentSourceNodeOptions, getBackend, setBackend, setDropEffect, record]
        | some o =>
          cases hs : mgr.getSourceId
              (mgr.hover (some targetIds.reverse) (host.getEventClientOffset e) w.session) <;>
            cases o <;>
            simp [hs] at ho <;>
            simp [getCurrentDropEffect, isDraggingNativeItem, query, hn, ho, hs,
              getCurrentSourceNodeOptions, getBackend, setBackend, setDropEffect, record]
      · simp [getCurrentDropEffect, isDraggingNativeItem, query, hn, setDropEffect, record]
    · intro hcan
      simp only [hcan, Bool.false_eq_true, if_false, isDraggingNativeItem, query, run_bind,
        run_pure]
      refine ⟨?_, ?_⟩
      · intro hn
        simp [hn, preventDefault, setDropEffect, record]
      · intro hn
        simp only [hn, Bool.false_eq_true, if_false]
        cases hnode : w.backend.currentDragSourceNode with
        | none =>
          simp [checkIfCurrentDragSourceRectChanged, getBackend, hnode]
        | some node =>
          cases hflag : w.backend.currentDragSourceNodeOffsetChanged
          · cases hsh : host.shallowEqual (host.getNodeClientOffset w.page.dom node)
                w.backend.currentDragSourceNodeOffset <;>
              simp [checkIfCurrentDragSourceRectChanged, getBackend, getPage, setBackend, hnode,
                hflag, hsh, preventDefault, setDropEffect, record]
          · simp [checkIfCurrentDragSourceRectChanged, getBackend, hnode, hflag,
              preventDefault, setDropEffect, record]

/-- C12 as stated fails: no session is active, `dragStartSourceIds` is empty
and the payload classifies as `FILE`, yet handling a `dragover` registers no
source and calls no `beginDrag`; it only calls `preventDefault` and sets
`dropEffect` to 'none', and `getItemType()` still reports no type. -/
theorem dragover_begins_no_native_session :
    sampleManager.isDragging sampleEmptyStart.session = false ∧
    sampleEmptyStart.backend.dragStartSourceIds = some [] ∧
    callsSince sampleEmptyStart
      (deliver (dragOverEvent (sampleHost false) sampleManager (sampleEvent (some ["Files"])) [])
        sampleEmptyStart) =
      [Call.preventDefault, Call.setDropEffect DropEffect.none] ∧
    sampleManager.getItemType
      (deliver (dragOverEvent (sampleHost false) sampleManager (sampleEvent (some ["Files"])) [])
        sampleEmptyStart).session = none := by
  decide

/-- C12 as amended. While no session is active a `dragover` event begins none,
whatever its payload: its only calls are `preventDefault` and `dropEffect =
'none'`, and the collaborators' state is unchanged.  The native session of the
scenario is begun by `handleTopDragStart`: on an instance that has been set
up, with `dragStartSourceIds` empty, no session active before or after the
`beginDrag` with the empty list, and a payload classified as `type` (`FILE` in
the scenario), the handler registers exactly one synthetic source of that type
and calls `beginDrag` with the list holding exactly the handle it got, which is
also stored as `currentNativeHandle`. -/
theorem native_session_begins_on_dragstart (host : Host) (mgr : Manager M) (e : DragEvent)
    (w : World M) :
    (∀ targetIds : List Ident, mgr.isDragging w.session = false →
      (deliver (dragOverEvent host mgr e targetIds) w).trace =
        w.trace ++ [Call.preventDefault, Call.setDropEffect DropEffect.none] ∧
      (deliver (dragOverEvent host mgr e targetIds) w).session = w.session) ∧
    (∀ (ws : Nat) (type : ItemType),
      w.backend.windowService = some ws →
      w.backend.dragStartSourceIds = some [] →
      mgr.isDragging w.session = false →
      host.matchNativeItemType e.dataTransfer = Except.ok (some type) →
      mgr.isDragging (sessionAfterBeginDrag host mgr e w) = false →
      (handleTopDragStart host mgr e w).thrown = none ∧
      (handleTopDragStart host mgr e w).state.trace =
        w.trace ++
          [Call.beginDrag (some [])
             (some { publishSource := false, clientOffset := host.getEventClientOffset e }),
           Call.addSource type,
           Call.beginDrag
             (some [(mgr.addSource type (sessionAfterBeginDrag host mgr e w)).1]) none] ∧
      (handleTopDragStart host mgr e w).state.session =
        mgr.beginDrag (some [(mgr.addSource type (sessionAfterBeginDrag host mgr e w)).1]) none
          (getSourceClientOffset host w.backend.sourceNodes w.page.dom)
          (mgr.addSource type (sessionAfterBeginDrag host mgr e w)).2 ∧
      (handleTopDragStart host mgr e w).state.backend.currentNativeHandle =
        some (mgr.addSource type (sessionAfterBeginDrag host mgr e w)).1) := by
  refine ⟨?_, ?_⟩
  · intro targetIds hd
    rw [deliver_dragOverEvent_eq]
    simp [handleTopDragOver, getBackend, setBackend, query, hd, preventDefault, setDropEffect,
      record]
  · intro ws type hws hids hd hm hafter
    unfold sessionAfterBeginDrag at hafter ⊢
    simp only [hd, hids, Bool.false_eq_true, if_false] at hafter ⊢
    cases hn : w.backend.currentDragSourceNode <;> cases hf : host.isFirefox <;>
      simp [handleTopDragStart, getBackend, setBackend, query, actionsBeginDrag, act, hd, hids,
        hm, hafter, beginDragNativeItem, clearCurrentDragSourceNode, registryAddSource,
        windowRemoveEventListener, windowAddEventListener, hws, hn, hf]

/-- A run of C12 as amended on the sample page: the `dragstart` of a file
begins a native session with handle 100, and the sample monitor then reports
the item type `FILE`. -/
theorem native_session_begins_on_dragstart_witness :
    sampleEmptyStart.backend.windowService = some 0 ∧
    sampleEmptyStart.backend.dragStartSourceIds = some [] ∧
    sampleManager.isDragging sampleEmptyStart.session = false ∧
    (handleTopDragStart (sampleHost false) sampleManager (sampleEvent (some ["Files"]))
      sampleEmptyStart).state.backend.currentNativeHandle =
      some (sampleManager.addSource ItemType.FILE
        (sessionAfterBeginDrag (sampleHost false) sampleManager (sampleEvent (some ["Files"]))
          sampleEmptyStart)).1 ∧
    sampleManager.getItemType
      (handleTopDragStart (sampleHost false) sampleManager (sampleEvent (some ["Files"]))
        sampleEmptyStart).state.session = some ItemType.FILE :=
  ⟨by decide, by decide, by decide,
   ((native_session_begins_on_dragstart (sampleHost false) sampleManager
      (sampleEvent (some ["Files"])) sampleEmptyStart).2 0 ItemType.FILE (by decide) (by decide)
      (by decide) rfl (by decide)).2.2.2,
   by decide⟩

/-- C13. When the classification of the payload does not throw (it returns
`nativeType`), `handleTopDragEnterCapture` resets `dragEnterTargetIds` to the
empty list and replaces the counter by the one `enter(e.target)` yields, a
single call; if `enter` reported a first enter, the monitor reports no drag and
`nativeType` is a type, the rest of the run is exactly
`beginDragNativeItem(nativeType)`; in every other case the handler returns
right there, having made no call. -/
theorem handleTopDragEnterCapture_native_begin (host : Host) (mgr : Manager M) (e : DragEvent)
    (w : World M) (nativeType : Option ItemType)
    (hclass : host.matchNativeItemType e.dataTransfer = Except.ok nativeType) :
    (handleTopDragEnterCapture host mgr e w).state.backend.dragEnterTargetIds = some [] ∧
    (handleTopDragEnterCapture host mgr e w).state.backend.enterLeaveCounter =
      (w.backend.enterLeaveCounter.enter e.target).2 ∧
    (∀ type : ItemType, nativeType = some type →
      (w.backend.enterLeaveCounter.enter e.target).1 = true →
      mgr.isDragging w.session = false →
      handleTopDragEnterCapture host mgr e w =
        beginDragNativeItem host mgr type
          { w with backend := { w.backend with
              dragEnterTargetIds := some [],
              enterLeaveCounter := (w.backend.enterLeaveCounter.enter e.target).2 } }) ∧
    ((nativeType = none ∨ (w.backend.enterLeaveCounter.enter e.target).1 = false ∨
        mgr.isDragging w.session = true) →
      handleTopDragEnterCapture host mgr e w =
        Res.ok ()
          { w with backend := { w.backend with
              dragEnterTargetIds := some [],
              enterLeaveCounter := (w.backend.enterLeaveCounter.enter e.target).2 } }) := by
  have hbegin : ∀ (type : ItemType) (w1 : World M),
      (beginDragNativeItem host mgr type w1).state.backend.dragEnterTargetIds =
        w1.backend.dragEnterTargetIds ∧
      (beginDragNativeItem host mgr type w1).state.backend.enterLeaveCounter =
        w1.backend.enterLeaveCounter := by
    intro type w1
    cases hn : w1.backend.currentDragSourceNode <;> cases hf : host.isFirefox <;>
      cases hws : w1.backend.windowService <;>
      simp [beginDragNativeItem, clearCurrentDragSourceNode, getBackend, setBackend,
        registryAddSource, actionsBeginDrag, act, windowRemoveEventListener,
        windowAddEventListener, hn, hf, hws]
  cases hfirst : (w.backend.enterLeaveCounter.enter e.target).1 <;>
    cases hd : mgr.isDragging w.session <;>
    cases nativeType <;>
    simp [handleTopDragEnterCapture, getBackend, setBackend, query, hfirst, hd, hclass, hbegin]

/-- A run of C13: a file enters the sample document for the first time
while no session is active, and the handler's run is that of
`beginDragNativeItem(FILE)`. -/
theorem handleTopDragEnterCapture_native_begin_witness :
    (sampleHost false).matchNativeItemType (sampleEvent (some ["Files"])).dataTransfer =
      Except.ok (some ItemType.FILE) ∧
    ((setup sampleWorld).state.backend.enterLeaveCounter.enter
      (sampleEvent (some ["Files"])).target).1 = true ∧
    sampleManager.isDragging (setup sampleWorld).state.session = false ∧
    (handleTopDragEnterCapture (sampleHost false) sampleManager (sampleEvent (some ["Files"]))
      (setup sampleWorld).state).state.backend.dragEnterTargetIds = some [] ∧
    (handleTopDragEnterCapture (sampleHost false) sampleManager (sampleEvent (some ["Files"]))
      (setup sampleWorld).state).state.trace =
      [Call.addSource ItemType.FILE, Call.beginDrag (some [100]) none] :=
  ⟨rfl, by decide, by decide,
   (handleTopDragEnterCapture_native_begin (sampleHost false) sampleManager
      (sampleEvent (some ["Files"])) (setup sampleWorld).state (some ItemType.FILE) rfl).1,
   by decide⟩

/-- C14 (evidence of the defect). On the sample page after `setup()`, no
session is active and a `dragenter` is a first enter; its payload is
unreadable, so `matchNativeItemType` throws.  `handleTopDragEnterCapture` has no
`try` around the classification (unlike `handleTopDragStart`): the exception
leaves the handler. -/
theorem handleTopDragEnterCapture_unreadable_payload_escapes :
    sampleManager.isDragging (setup sampleWorld).state.session = false ∧
    ((setup sampleWorld).state.backend.enterLeaveCounter.enter
      (sampleEvent (some ["unreadable"])).target).1 = true ∧
    (handleTopDragEnterCapture (sampleHost false) sampleManager
      (sampleEvent (some ["unreadable"])) (setup sampleWorld).state).thrown =
      some JsError.unreadable ∧
    (handleTopDragStart (sampleHost false) sampleManager
      (sampleEvent (some ["unreadable"])) (setup sampleWorld).state).thrown = none := by
  decide

/-- C15 (evidence of the defect). A native drag is in progress on the
sample page and no global `host` is declared.  A `dragleave` whose
`preventDefault` is inaccessible, and one whose target is inaccessible, both
end with a ReferenceError leaving `handleTopDragLeaveCapture`: the `catch`
blocks read the undeclared `host`.  With `host` declared (here with a falsy
value) neither exception leaves the handler, and the native drag is not
ended. -/
theorem handleTopDragLeaveCapture_undeclared_host_escapes :
    NativeTypes.any (fun t => some t == sampleManager.getItemType sampleNativeDrag.session) =
      true ∧
    (handleTopDragLeaveCapture (sampleHostWith GlobalHost.undeclared) sampleManager
      { preventDefaultThrows := true, targetThrows := false } (sampleEvent (some ["Files"]))
      sampleNativeDrag).thrown = some JsError.referenceError ∧
    (handleTopDragLeaveCapture (sampleHostWith GlobalHost.undeclared) sampleManager
      { preventDefaultThrows := false, targetThrows := true } (sampleEvent (some ["Files"]))
      sampleNativeDrag).thrown = some JsError.referenceError ∧
    (handleTopDragLeaveCapture (sampleHostWith GlobalHost.falsy) sampleManager
      { preventDefaultThrows := true, targetThrows := false } (sampleEvent (some ["Files"]))
      sampleNativeDrag).thrown = none ∧
    (handleTopDragLeaveCapture (sampleHostWith GlobalHost.falsy) sampleManager
      { preventDefaultThrows := false, targetThrows := true } (sampleEvent (some ["Files"]))
      sampleNativeDrag).thrown = none ∧
    callsSince sampleNativeDrag
      (handleTopDragLeaveCapture (sampleHostWith GlobalHost.falsy) sampleManager
        { preventDefaultThrows := false, targetThrows := true } (sampleEvent (some ["Files"]))
        sampleNativeDrag).state = [Call.preventDefault] := by
  decide

/-- C16. `handleTopDrop` on an instance that has been set up.  If the monitor
reports no drag it makes no call (it only resets `dropTargetIds`).  Otherwise
it calls `hover` with the accumulated drop ids and then `drop`, once each, and
then, with the monitor as `drop` left it: if a native item is dragged it ends
the native drag (`endDrag`, then `removeSource` of the current native handle);
if not, it calls `endDrag` exactly when a drag source node is tracked and
`document.body` no longer contains it, and nothing otherwise. -/
theorem handleTopDrop_calls (host : Host) (mgr : Manager M) (e : DragEvent) (w : World M)
    (ws : Nat) (hws : w.backend.windowService = some ws) :
    (mgr.isDragging w.session = false →
      handleTopDrop host mgr e w =
        Res.ok () { w with backend := { w.backend with dropTargetIds := some [] } }) ∧
    (mgr.isDragging w.session = true →
      (NativeTypes.any (fun t => some t == mgr.getItemType
          (mgr.drop (mgr.hover w.backend.dropTargetIds (host.getEventClientOffset e)
            w.session))) = true →
        (handleTopDrop host mgr e w).state.trace =
          w.trace ++ [Call.hover w.backend.dropTargetIds (host.getEventClientOffset e),
            Call.drop, Call.endDrag, Call.removeSource w.backend.currentNativeHandle]) ∧
      (NativeTypes.any (fun t => some t == mgr.getItemType
          (mgr.drop (mgr.hover w.backend.dropTargetIds (host.getEventClientOffset e)
            w.session))) = false →
        (handleTopDrop host mgr e w).state.trace =
          w.trace ++ [Call.hover w.backend.dropTargetIds (host.getEventClientOffset e),
            Call.drop] ++
            (if w.backend.currentDragSourceNode.isSome ∧
                documentBodyContains w.page.dom w.backend.currentDragSourceNode = false
              then [Call.endDrag] else []))) := by
  refine ⟨?_, ?_⟩
  · intro hd
    simp [handleTopDrop, getBackend, setBackend, query, hd]
  · intro hd
    refine ⟨?_, ?_⟩
    · intro hn
      simp [handleTopDrop, getBackend, setBackend, query, hd, actionsHover, actionsDrop, act,
        isDraggingNativeItem, hn, endDragNativeItem, actionsEndDrag, registryRemoveSource]
    · intro hn
      cases hnode : w.backend.currentDragSourceNode with
      | none =>
        simp [handleTopDrop, getBackend, setBackend, query, hd, actionsHover, actionsDrop, act,
          isDraggingNativeItem, hn, endDragIfSourceWasRemovedFromDOM, getPage,
          documentBodyContains, clearCurrentDragSourceNode, hnode]
      | some node =>
        by_cases hin : node ∈ w.page.dom.body <;>
          simp [handleTopDrop, getBackend, setBackend, query, hd, actionsHover, actionsDrop,
            act, isDraggingNativeItem, hn, endDragIfSourceWasRemovedFromDOM, getPage,
            documentBodyContains, clearCurrentDragSourceNode, hnode, hin,
            windowRemoveEventListener, hws, actionsEndDrag]

/-- A run of C16: source 1 is dragged on the sample page, its node has been
removed from the document, and the drop reaches the bubble listener. -/
theorem handleTopDrop_calls_witness :
    sampleSourceRemoved.backend.windowService = some 0 ∧
    sampleManager.isDragging sampleSourceRemoved.session = true ∧
    (handleTopDrop (sampleHost false) sampleManager (sampleEvent none)
      sampleSourceRemoved).state.trace =
      sampleSourceRemoved.trace ++
        [Call.hover sampleSourceRemoved.backend.dropTargetIds
           ((sampleHost false).getEventClientOffset (sampleEvent none)), Call.drop] ++
        (if sampleSourceRemoved.backend.currentDragSourceNode.isSome ∧
            documentBodyContains sampleSourceRemoved.page.dom
              sampleSourceRemoved.backend.currentDragSourceNode = false
          then [Call.endDrag] else []) :=
  ⟨by decide, by decide,
   ((handleTopDrop_calls (sampleHost false) sampleManager (sampleEvent none)
      sampleSourceRemoved 0 (by decide)).2 (by decide)).2 (by decide)⟩

/-- C17. `endDragNativeItem` returns with the state untouched (no call, no
field changed) when the monitor's item type is not one of the native types;
otherwise it calls `actions.endDrag` once, then `registry.removeSource` with the
current native handle once, sets `currentNativeHandle` and `currentNativeSource`
to null, and changes nothing else. -/
theorem endDragNativeItem_effect (mgr : Manager M) (w : World M) :
    (NativeTypes.any (fun t => some t == mgr.getItemType w.session) = false →
      endDragNativeItem mgr w = Res.ok () w) ∧
    (NativeTypes.any (fun t => some t == mgr.getItemType w.session) = true →
      endDragNativeItem mgr w =
        Res.ok ()
          { w with
            session := mgr.removeSource w.backend.currentNativeHandle (mgr.endDrag w.session),
            backend := { w.backend with currentNativeHandle := none,
                                        currentNativeSource := none },
            trace := w.trace ++ [Call.endDrag,
              Call.removeSource w.backend.currentNativeHandle] }) := by
  refine ⟨?_, ?_⟩ <;> intro hn <;>
    simp [endDragNativeItem, isDraggingNativeItem, query, hn, actionsEndDrag, act, getBackend,
      registryRemoveSource, setBackend]

theorem jsObj_get_delete {α : Type} (o : JsObj α) (key : Ident) :
    JsObj.get (JsObj.delete o key) (some key) = none := by
  simp [JsObj.get, JsObj.delete, List.find?_eq_none]

/-- C18. `getCurrentDropEffect` returns normally in every state and makes no
call.  It returns 'copy' when the monitor's item type is native.  Otherwise it
returns the `dropEffect` of the options registered for the monitor's current
source id when they declare one, and 'move' when no options are registered for
that id, when the registered options are undefined, or when they declare no
`dropEffect`; after `connectDragSource`'s disconnect function has run for an id
no options are registered for it. -/
theorem getCurrentDropEffect_value (mgr : Manager M) (w : World M) :
    (NativeTypes.any (fun t => some t == mgr.getItemType w.session) = true →
      getCurrentDropEffect mgr w = Res.ok (some DropEffect.copy) w) ∧
    (NativeTypes.any (fun t => some t == mgr.getItemType w.session) = false →
      (∀ (options : SourceOptions) (effect : DropEffect),
        JsObj.get w.backend.sourceNodeOptions (mgr.getSourceId w.session) =
          some (some options) →
        options.dropEffect = some effect →
        ∃ w1 : World M, getCurrentDropEffect mgr w = Res.ok (some effect) w1 ∧
          w1.trace = w.trace ∧ w1.session = w.session) ∧
      ((JsObj.get w.backend.sourceNodeOptions (mgr.getSourceId w.session) = none ∨
        JsObj.get w.backend.sourceNodeOptions (mgr.getSourceId w.session) = some none ∨
        JsObj.get w.backend.sourceNodeOptions (mgr.getSourceId w.session) =
          some (some { dropEffect := none })) →
        ∃ w1 : World M, getCurrentDropEffect mgr w = Res.ok (some DropEffect.move) w1 ∧
          w1.trace = w.trace ∧ w1.session = w.session)) ∧
    (∀ (sourceId : Ident) (node : Node),
      JsObj.get (disconnectDragSource sourceId node w).state.backend.sourceNodeOptions
        (some sourceId) = none) := by
  refine ⟨?_, ?_, ?_⟩
  · intro hn
    simp [getCurrentDropEffect, isDraggingNativeItem, query, hn]
  · intro hn
    refine ⟨?_, ?_⟩
    · intro options effect hget heffect
      cases hs : mgr.getSourceId w.session with
      | none => simp [hs, JsObj.get] at hget
      | some id =>
        rw [hs] at hget
        simp [getCurrentDropEffect, isDraggingNativeItem, query, hn, getCurrentSourceNodeOptions,
          getBackend, setBackend, hs, hget, heffect]
    · intro hget
      cases hs : mgr.getSourceId w.session with
      | none =>
        simp [getCurrentDropEffect, isDraggingNativeItem, query, hn, getCurrentSourceNodeOptions,
          getBackend, hs]
      | some id =>
        rw [hs] at hget
        rcases hget with h | h | h <;>
          simp [getCurrentDropEffect, isDraggingNativeItem, query, hn,
            getCurrentSourceNodeOptions, getBackend, setBackend, hs, h]
  · intro sourceId node
    simp [disconnectDragSource, setBackend, getBackend, setPage, jsObj_get_delete]

theorem count_removeListener (ls : List Listener) (l : Listener) :
    (removeListener ls l).count l = 0 := by
  simp [removeListener, List.count_eq_zero]

theorem count_addListener (ls : List Listener) (l : Listener) (h : ls.count l = 0) :
    (addListener ls l).count l = 1 := by
  have hmem : l ∉ ls := List.count_eq_zero.mp h
  simp [addListener, hmem, h]

theorem tracking_invariant (host : Host) (calls : List TrackingCall) (w : World M) (ws : Nat)
    (hws : w.backend.windowService = some ws)
    (hcount : w.page.listeners.count (mousemoveListener ws w.backend.self) =
      if w.backend.currentDragSourceNode.isSome then 1 else 0) :
    (runTrackingCalls host calls w).backend.windowService = some ws ∧
    (runTrackingCalls host calls w).backend.self = w.backend.self ∧
    (runTrackingCalls host calls w).page.listeners.count (mousemoveListener ws w.backend.self) =
      if (runTrackingCalls host calls w).backend.currentDragSourceNode.isSome then 1 else 0 := by
  induction calls generalizing w with
  | nil => exact ⟨hws, rfl, hcount⟩
  | cons c rest ih =>
    have hstep : (runTrackingCall host c w).backend.windowService = some ws ∧
        (runTrackingCall host c w).backend.self = w.backend.self ∧
        (runTrackingCall host c w).page.listeners.count
            (mousemoveListener ws w.backend.self) =
          if (runTrackingCall host c w).backend.currentDragSourceNode.isSome then 1 else 0 := by
      cases c with
      | setCurrentDragSourceNode node =>
        cases hn : w.backend.currentDragSourceNode with
        | none =>
          simp only [hn, Option.isSome_none, Bool.false_eq_true, if_false] at hcount
          simp [runTrackingCall, setCurrentDragSourceNode, clearCurrentDragSourceNode,
            getBackend, setBackend, getPage, windowAddEventListener, hws, hn]
          exact count_addListener _ _ hcount
        | some old =>
          simp [runTrackingCall, setCurrentDragSourceNode, clearCurrentDragSourceNode,
            getBackend, setBackend, getPage, windowAddEventListener,
            windowRemoveEventListener, hws, hn]
          exact count_addListener _ _ (count_removeListener _ _)
      | clearCurrentDragSourceNode =>
        cases hn : w.backend.currentDragSourceNode with
        | none =>
          simp only [hn, Option.isSome_none, Bool.false_eq_true, if_false] at hcount
          simp [runTrackingCall, clearCurrentDragSourceNode, getBackend, hws, hn, hcount]
        | some old =>
          simp [runTrackingCall, clearCurrentDragSourceNode, getBackend, setBackend,
            windowRemoveEventListener, hws, hn]
          exact count_removeListener _ _
    obtain ⟨h1, h2, h3⟩ := hstep
    have := ih (runTrackingCall host c w) h1 (by rw [h2]; exact h3)
    simp only [runTrackingCalls, List.foldl_cons] at this ⊢
    rw [h2] at this
    exact this

/-- C19 (evidence of the defect). On the sample page a file dragged in from
outside begins a native session with handle 100.  A `dragstart` of another file
arrives while that session is still active: `handleTopDragStart` force-ends it
with `actions.endDrag` alone, never passing handle 100 to
`registry.removeSource`, and then begins a native session with handle 101.
Both ephemeral handles are registered afterwards. -/
theorem force_ended_native_handle_stays_registered :
    sampleNativeDrag.backend.currentNativeHandle = some 100 ∧
    callsSince sampleNativeDrag sampleSecondNativeDrag =
      [Call.endDrag,
       Call.beginDrag (some [])
         (some { publishSource := false, clientOffset := { x := 10, y := 20 } }),
       Call.addSource ItemType.FILE,
       Call.beginDrag (some [101]) none] ∧
    Call.removeSource (some 100) ∉ sampleSecondNativeDrag.trace ∧
    sampleSecondNativeDrag.backend.currentNativeHandle = some 101 ∧
    sampleSecondNativeDrag.session.sources =
      [(101, ItemType.FILE), (100, ItemType.FILE), (1, ItemType.other 0)] := by
  decide

/-- C20. Start from a state of an instance that has been set up in which no
drag source node is tracked and the `mousemove` listener
`endDragIfSourceWasRemovedFromDOM` is not registered, and run any sequence of
`setCurrentDragSourceNode(node)` and `clearCurrentDragSourceNode()` calls.
Afterwards the listener is registered on the window service if and only if
`currentDragSourceNode` is non-null, it is registered at most once, and
`clearCurrentDragSourceNode()` returns normally with the value true exactly
when a node is tracked. -/
theorem mousemove_listener_iff_tracked (host : Host) (calls : List TrackingCall)
    (w : World M) (ws : Nat)
    (hws : w.backend.windowService = some ws)
    (hnode : w.backend.currentDragSourceNode = none)
    (hfresh : mousemoveListener ws w.backend.self ∉ w.page.listeners) :
    (mousemoveListener ws w.backend.self ∈ (runTrackingCalls host calls w).page.listeners ↔
      (runTrackingCalls host calls w).backend.currentDragSourceNode.isSome = true) ∧
    (runTrackingCalls host calls w).page.listeners.count
      (mousemoveListener ws w.backend.self) ≤ 1 ∧
    ∃ w1 : World M, clearCurrentDragSourceNode (runTrackingCalls host calls w) =
      Res.ok (runTrackingCalls host calls w).backend.currentDragSourceNode.isSome w1 := by
  obtain ⟨h1, _, h3⟩ := tracking_invariant host calls w ws hws
    (by simp [hnode, List.count_eq_zero.mpr hfresh])
  refine ⟨?_, ?_, ?_⟩
  · cases hn : (runTrackingCalls host calls w).backend.currentDragSourceNode with
    | none =>
      rw [hn] at h3
      simp only [Option.isSome_none, Bool.false_eq_true, if_false] at h3
      simp [List.count_eq_zero.mp h3]
    | some node =>
      rw [hn] at h3
      simp only [Option.isSome_some, if_true] at h3
      have : 0 < List.count (mousemoveListener ws w.backend.self)
          (runTrackingCalls host calls w).page.listeners := by omega
      simp [List.count_pos_iff.mp this]
  · rw [h3]
    split <;> simp
  · cases hn : (runTrackingCalls host calls w).backend.currentDragSourceNode <;>
      simp [clearCurrentDragSourceNode, getBackend, setBackend, windowRemoveEventListener, hn,
        h1]

/-- A run of C20 on the sample page: track node 1, track node 2, clear,
clear. -/
theorem mousemove_listener_iff_tracked_witness :
    (setup sampleWorld).state.backend.windowService = some 0 ∧
    (setup sampleWorld).state.backend.currentDragSourceNode = none ∧
    mousemoveListener 0 (setup sampleWorld).state.backend.self ∉
      (setup sampleWorld).state.page.listeners ∧
    (runTrackingCalls (sampleHost false)
      [TrackingCall.setCurrentDragSourceNode 1, TrackingCall.setCurrentDragSourceNode 2,
       TrackingCall.clearCurrentDragSourceNode, TrackingCall.clearCurrentDragSourceNode]
      (setup sampleWorld).state).page.listeners.count
        (mousemoveListener 0 (setup sampleWorld).state.backend.self) ≤ 1 :=
  ⟨by decide, by decide, by decide,
   (mousemove_listener_iff_tracked (sampleHost false)
      [TrackingCall.setCurrentDragSourceNode 1, TrackingCall.setCurrentDragSourceNode 2,
       TrackingCall.clearCurrentDragSourceNode, TrackingCall.clearCurrentDragSourceNode]
      (setup sampleWorld).state 0 (by decide) (by decide) (by decide)).2.1⟩

theorem rectCheckResults_of_flag (host : Host) (steps : List RectStep) (w : World M)
    (node : Node) (hnode : w.backend.currentDragSourceNode = some node)
    (hflag : w.backend.currentDragSourceNodeOffsetChanged = true) :
    ∀ r ∈ rectCheckResults host steps w, r = some true := by
  induction steps generalizing w with
  | nil => simp [rectCheckResults]
  | cons s rest ih =>
    have hcheck : checkIfCurrentDragSourceRectChanged host w = Res.ok true w := by
      simp [checkIfCurrentDragSourceRectChanged, getBackend, hnode, hflag]
    cases s with
    | check =>
      intro r hr
      simp only [rectCheckResults, hcheck, List.mem_cons] at hr
      rcases hr with h | h
      · simpa [Res.value] using h
      · exact ih w hnode hflag r h
    | layout dom =>
      intro r hr
      simp only [rectCheckResults] at hr
      exact ih { w with page := { w.page with dom := dom } } hnode hflag r hr

/-- C21. `checkIfCurrentDragSourceRectChanged()` returns false, changing
nothing, when no drag source node is tracked.  For a tracked node it returns
true exactly when the dirty flag is already set or the node's current offset is
not shallow-equal to `currentDragSourceNodeOffset`, the offset
`setCurrentDragSourceNode` captured; it stores that answer in the flag and
touches neither the node nor the captured offset.  Once it has returned true,
every later call returns true, whatever the layout has become in between
(also when the node is back at the captured offset), in every state in which
the node and the flag are as that call left them.  Clearing the node, or
setting a node, resets the flag. -/
theorem checkIfCurrentDragSourceRectChanged_sticky (host : Host) (w : World M) :
    (w.backend.currentDragSourceNode = none →
      checkIfCurrentDragSourceRectChanged host w = Res.ok false w) ∧
    (∀ node : Node, w.backend.currentDragSourceNode = some node →
      checkIfCurrentDragSourceRectChanged host w =
        Res.ok
          (w.backend.currentDragSourceNodeOffsetChanged ||
            !host.shallowEqual (host.getNodeClientOffset w.page.dom node)
              w.backend.currentDragSourceNodeOffset)
          { w with backend := { w.backend with
              currentDragSourceNodeOffsetChanged :=
                (w.backend.currentDragSourceNodeOffsetChanged ||
                  !host.shallowEqual (host.getNodeClientOffset w.page.dom node)
                    w.backend.currentDragSourceNodeOffset) } }) ∧
    (∀ w1 : World M, checkIfCurrentDragSourceRectChanged host w = Res.ok true w1 →
      (∀ steps : List RectStep, ∀ r ∈ rectCheckResults host steps w1, r = some true) ∧
      (∀ w2 : World M,
        w2.backend.currentDragSourceNode = w1.backend.currentDragSourceNode →
        w2.backend.currentDragSourceNodeOffsetChanged =
          w1.backend.currentDragSourceNodeOffsetChanged →
        checkIfCurrentDragSourceRectChanged host w2 = Res.ok true w2)) ∧
    (∀ (ws : Nat) (node : Node), w.backend.windowService = some ws →
      (setCurrentDragSourceNode host node w).state.backend.currentDragSourceNode = some node ∧
      (setCurrentDragSourceNode host node w).state.backend.currentDragSourceNodeOffset =
        host.getNodeClientOffset w.page.dom node ∧
      (setCurrentDragSourceNode host node w).state.backend.currentDragSourceNodeOffsetChanged =
        false ∧
      (clearCurrentDragSourceNode w).state.backend.currentDragSourceNodeOffsetChanged =
        (w.backend.currentDragSourceNodeOffsetChanged &&
          !w.backend.currentDragSourceNode.isSome) ∧
      checkIfCurrentDragSourceRectChanged host (clearCurrentDragSourceNode w).state =
        Res.ok false (clearCurrentDragSourceNode w).state) := by
  have htracked : ∀ node : Node, w.backend.currentDragSourceNode = some node →
      checkIfCurrentDragSourceRectChanged host w =
        Res.ok
          (w.backend.currentDragSourceNodeOffsetChanged ||
            !host.shallowEqual (host.getNodeClientOffset w.page.dom node)
              w.backend.currentDragSourceNodeOffset)
          { w with backend := { w.backend with
              currentDragSourceNodeOffsetChanged :=
                (w.backend.currentDragSourceNodeOffsetChanged ||
                  !host.shallowEqual (host.getNodeClientOffset w.page.dom node)
                    w.backend.currentDragSourceNodeOffset) } } := by
    intro node hnode
    obtain ⟨page, session, backend, trace⟩ := w
    cases backend
    simp only at hnode
    subst hnode
    rename_i flag _ _ _ _
    cases flag <;>
      simp [checkIfCurrentDragSourceRectChanged, getBackend, getPage, setBackend]
  refine ⟨?_, htracked, ?_, ?_⟩
  · intro hnode
    simp [checkIfCurrentDragSourceRectChanged, getBackend, hnode]
  · intro w1 hrun
    cases hnode : w.backend.currentDragSourceNode with
    | none =>
      simp [checkIfCurrentDragSourceRectChanged, getBackend, hnode] at hrun
    | some node =>
      rw [htracked node hnode] at hrun
      simp only [Res.ok.injEq] at hrun
      obtain ⟨hval, hw1⟩ := hrun
      have h1node : w1.backend.currentDragSourceNode = some node := by
        rw [← hw1]
        exact hnode
      have h1flag : w1.backend.currentDragSourceNodeOffsetChanged = true := by
        rw [← hw1]
        exact hval
      refine ⟨fun steps => rectCheckResults_of_flag host steps w1 node h1node h1flag, ?_⟩
      intro w2 h2node h2flag
      rw [h1node] at h2node
      rw [h1flag] at h2flag
      simp [checkIfCurrentDragSourceRectChanged, getBackend, h2node, h2flag]
  · intro ws node hws
    cases hnode : w.backend.currentDragSourceNode <;>
      simp [setCurrentDragSourceNode, clearCurrentDragSourceNode, getBackend, setBackend,
        getPage, windowRemoveEventListener, windowAddEventListener, hws, hnode,
        checkIfCurrentDragSourceRectChanged]

/-- A run of C21 on the sample page: node 1 was tracked before it had an
offset; once it has one the check returns true, and it keeps returning true
after a layout that puts the node back where it was captured. -/
theorem checkIfCurrentDragSourceRectChanged_sticky_witness :
    sampleSourceMoved.backend.currentDragSourceNode = some 1 ∧
    (checkIfCurrentDragSourceRectChanged (sampleHost false) sampleSourceMoved).value =
      some true ∧
    (checkIfCurrentDragSourceRectChanged (sampleHost false)
      sampleSourceDrag).value = some false ∧
    ∀ r ∈ rectCheckResults (sampleHost false)
        [RectStep.layout sampleSourceDrag.page.dom, RectStep.check, RectStep.check]
        (checkIfCurrentDragSourceRectChanged (sampleHost false) sampleSourceMoved).state,
      r = some true :=
  ⟨by decide, by decide, by decide,
   ((checkIfCurrentDragSourceRectChanged_sticky (sampleHost false) sampleSourceMoved).2.2.1
      (checkIfCurrentDragSourceRectChanged (sampleHost false) sampleSourceMoved).state
      rfl).1
      [RectStep.layout sampleSourceDrag.page.dom, RectStep.check, RectStep.check]⟩

end Claims

end HTML5Backend
